import Mathlib

/-!
# Verification of the Figma-Context-MCP design-graph simplification engine

This file gives a shallow embedding, in Lean 4, of the core of the
Figma-Context-MCP server: the style interner (`findOrCreateVar`), the
post-traversal style optimization (`optimizeStyles`), the structural /
content signatures, the recursive node simplifier (`parseNode`), the
transformers it invokes (paints, effects, strokes, layout, text style),
the `removeEmptyKeys` emission cleanup and the `fetchWithRetry` fallback
contract, together with theorems settling the specification claims.

Conventions of the embedding:
* JavaScript objects are modelled as association lists (first binding
  wins, updates replace in place, deletes remove; object keys are unique,
  so removing every binding of a key coincides with `delete`), and
  JavaScript `Map`s as association lists kept in a dedicated `JVal`
  constructor so that their distinct enumeration behaviour under
  `removeEmptyKeys` is preserved.
* JavaScript numbers are modelled as rationals (`Rat`); the values the
  claims exercise are exact in this model.
* Fallible code (the `throw` in `parsePaint`) is modelled with `Except`.
* The random six-character suffix of `generateVarId` is modelled by a
  deterministic fresh counter threaded through the parse state: the code
  relies on the generated ids being fresh, and freshness is what the
  counter provides.  Style ids are therefore pairs (prefix, serial).
* Recursive tree functions are written with an explicit fuel argument
  (`...F` versions) so that they reduce definitionally; the wrappers
  instantiate the fuel with `sizeOf` of the argument, which is always
  sufficient because each recursive call strictly decreases `sizeOf`.
-/

namespace FigmaMCP

/-! ## Small utilities: JS-flavoured strings, numbers and assoc lists -/

/-- Character-level strict order, matching JS string comparison (UTF-16
code units) on the ASCII data used by the code. -/
def charListLt : List Char → List Char → Bool
  | [], [] => false
  | [], _ :: _ => true
  | _ :: _, [] => false
  | a :: as, b :: bs =>
    if a.val < b.val then true
    else if b.val < a.val then false
    else charListLt as bs

def strLtB (a b : String) : Bool := charListLt a.toList b.toList

/-- Insertion sort with the JS default string comparator (stable, like
`Array.prototype.sort`). -/
def insertStr (x : String) : List String → List String
  | [] => [x]
  | y :: ys => if strLtB x y then x :: y :: ys else y :: insertStr x ys

def sortStr : List String → List String
  | [] => []
  | x :: xs => insertStr x (sortStr xs)

def dedupFirstAux (seen : List String) : List String → List String
  | [] => []
  | x :: xs =>
    if x ∈ seen then dedupFirstAux seen xs
    else x :: dedupFirstAux (seen ++ [x]) xs

/-- First-occurrence deduplication, matching `Array.from(new Set(xs))`. -/
def dedupFirst (l : List String) : List String := dedupFirstAux [] l

/-- Is `needle` a prefix of `hay`? (character lists) -/
def startsWithCL : List Char → List Char → Bool
  | [], _ => true
  | _ :: _, [] => false
  | a :: as, b :: bs => a = b && startsWithCL as bs

/-- Does `needle` occur in `hay`? (character lists) -/
def hasSubCL (needle : List Char) : List Char → Bool
  | [] => needle.isEmpty
  | c :: rest => startsWithCL needle (c :: rest) || hasSubCL needle rest

/-- Substring test (`String.prototype.includes`). -/
def containsSub (hay needle : String) : Bool :=
  if needle = "" then true else hasSubCL needle.toList hay.toList

/-- `String.prototype.toLowerCase` on the ASCII data in play. -/
def lowerStr (s : String) : String := (s.toList.map Char.toLower).asString

def trimLeadCL : List Char → List Char
  | [] => []
  | c :: rest => if c.isWhitespace then trimLeadCL rest else c :: rest

/-- `String.prototype.trim` on the ASCII data in play. -/
def jsTrim (s : String) : String :=
  ((trimLeadCL (trimLeadCL s.toList).reverse).reverse).asString

/-- `Math.round`: round half toward positive infinity. -/
def jsRound (q : Rat) : Int := ⌊q + 1/2⌋

/-- Decimal rendering of the rationals that stand for JS numbers.  For
integers this is exactly the JS output; for the finitely-representable
decimal fractions produced by the code's divisions it renders the usual
decimal expansion, which is what JS shortest-round-trip printing yields
on every value this embedding manipulates. -/
def jsNumToString (q : Rat) : String :=
  if q.den = 1 then toString q.num
  else
    let sign := if q < 0 then "-" else ""
    let a : Rat := |q|
    match (List.range 21).find? (fun k => (a * (10 : Rat) ^ k).den = 1) with
    | some k =>
      let scaled : Nat := (a * (10 : Rat) ^ k).num.toNat
      let digits := toString scaled
      let digits := if digits.length ≤ k then
        String.mk (List.replicate (k + 1 - digits.length) '0') ++ digits else digits
      sign ++ digits.dropRight k ++ "." ++ digits.takeRight k
    | none => sign ++ toString a.num ++ "/" ++ toString a.den

/-- Association-list lookup: first binding wins (JS object / `Map.get`). -/
def aget {α β : Type} [DecidableEq α] : List (α × β) → α → Option β
  | [], _ => none
  | (k, v) :: rest, key => if k = key then some v else aget rest key

/-- Association-list update: replace in place, else append (JS object
assignment / `Map.set`, which preserve insertion order). -/
def aset {α β : Type} [DecidableEq α] : List (α × β) → α → β → List (α × β)
  | [], key, v => [(key, v)]
  | (k, w) :: rest, key, v =>
    if k = key then (k, v) :: rest else (k, w) :: aset rest key v

/-- Association-list delete (JS `delete obj[k]`; object keys are unique,
so dropping every binding of the key is the same operation). -/
def aerase {α β : Type} [DecidableEq α] (l : List (α × β)) (key : α) : List (α × β) :=
  l.filter (fun kv => kv.1 ≠ key)

/-! ## A model of JS values

`JVal` models the JavaScript values flowing through the simplifier as far
as serialization and `removeEmptyKeys` are concerned.  `undef` is a
present-but-`undefined` property value (`JSON.stringify` skips it in
objects and renders it `null` in arrays; `removeEmptyKeys` drops it).
`jsmap` is a JavaScript `Map`: `for...in` sees no enumerable own
properties on a `Map`, so `removeEmptyKeys` turns it into an empty plain
object, which its caller then drops.  `JList`/`JKvs` are the element and
property-list spines (mutual inductives keep every function structural
and definitionally reducing). -/

mutual

inductive JVal where
  | undef : JVal
  | null : JVal
  | bool (b : Bool) : JVal
  | num (q : Rat) : JVal
  | str (s : String) : JVal
  | arr (xs : JList) : JVal
  | obj (kvs : JKvs) : JVal
  | jsmap (kvs : JKvs) : JVal
deriving DecidableEq, Repr

inductive JList where
  | nil : JList
  | cons (hd : JVal) (tl : JList) : JList
deriving DecidableEq, Repr

inductive JKvs where
  | nil : JKvs
  | cons (key : String) (val : JVal) (tl : JKvs) : JKvs
deriving DecidableEq, Repr

end

def JList.ofList : List JVal → JList
  | [] => JList.nil
  | x :: xs => JList.cons x (JList.ofList xs)

def JList.toList : JList → List JVal
  | JList.nil => []
  | JList.cons x xs => x :: JList.toList xs

def JKvs.ofList : List (String × JVal) → JKvs
  | [] => JKvs.nil
  | (k, v) :: kvs => JKvs.cons k v (JKvs.ofList kvs)

def JKvs.toList : JKvs → List (String × JVal)
  | JKvs.nil => []
  | JKvs.cons k v kvs => (k, v) :: JKvs.toList kvs

/-- Property read, first binding wins. -/
def JKvs.get : JKvs → String → Option JVal
  | JKvs.nil, _ => none
  | JKvs.cons k v kvs, key => if k = key then some v else JKvs.get kvs key

/-- `Object.keys` of a plain object: keys in insertion order. -/
def JKvs.keys : JKvs → List String
  | JKvs.nil => []
  | JKvs.cons k _ kvs => k :: JKvs.keys kvs

def JList.length : JList → Nat
  | JList.nil => 0
  | JList.cons _ xs => 1 + JList.length xs

/-- Does `removeEmptyKeys` keep a property with this (already cleaned)
value?  It drops `undefined`, empty arrays and empty objects
(`common.ts` lines 95-103); `null` survives the `!== null` guard. -/
def keepCleaned : JVal → Bool
  | JVal.undef => false
  | JVal.arr JList.nil => false
  | JVal.obj JKvs.nil => false
  | JVal.jsmap _ => false
  | _ => true

mutual

/-- `removeEmptyKeys` from `src/utils/common.ts` (lines 74-110): leave
non-objects alone, map over arrays, and rebuild objects keeping only the
keys whose recursively-cleaned value is neither `undefined` nor an empty
array nor an empty object.  A `Map` has no enumerable own properties, so
it is rebuilt as an empty plain object. -/
def removeEmptyKeys : JVal → JVal
  | JVal.undef => JVal.undef
  | JVal.null => JVal.null
  | JVal.bool b => JVal.bool b
  | JVal.num q => JVal.num q
  | JVal.str s => JVal.str s
  | JVal.arr xs => JVal.arr (removeEmptyList xs)
  | JVal.obj kvs => JVal.obj (removeEmptyKvs kvs)
  | JVal.jsmap _ => JVal.obj JKvs.nil

def removeEmptyList : JList → JList
  | JList.nil => JList.nil
  | JList.cons x xs => JList.cons (removeEmptyKeys x) (removeEmptyList xs)

def removeEmptyKvs : JKvs → JKvs
  | JKvs.nil => JKvs.nil
  | JKvs.cons k v kvs =>
    let cleaned := removeEmptyKeys v
    if keepCleaned cleaned then JKvs.cons k cleaned (removeEmptyKvs kvs)
    else removeEmptyKvs kvs

end

mutual

/-- Structural size, used as fuel for the serializer. -/
def jvalSize : JVal → Nat
  | JVal.arr xs => 1 + jlistSize xs
  | JVal.obj kvs => 1 + jkvsSize kvs
  | JVal.jsmap kvs => 1 + jkvsSize kvs
  | _ => 1

def jlistSize : JList → Nat
  | JList.nil => 1
  | JList.cons x xs => 1 + jvalSize x + jlistSize xs

def jkvsSize : JKvs → Nat
  | JKvs.nil => 1
  | JKvs.cons _ v kvs => 1 + jvalSize v + jkvsSize kvs

end

/-- `JSON.stringify` string quoting.  The strings in this development
contain no characters that need escaping. -/
def jsonQuote (s : String) : String := "\"" ++ s ++ "\""

/-- `JSON.stringify(value, replacerList)`: objects keep the keys listed
in `allowed`, in that order, skipping ones that are absent or
`undefined`; arrays serialize every element (an `undefined` element
prints `null`); the replacer list applies at every nesting level.
Returns `none` where JS returns `undefined` (serializing `undefined`
itself).  Fuel-indexed; the wrapper supplies `jvalSize`, which is always
sufficient. -/
def jsonStringifyRF : Nat → JVal → List String → Option String
  | 0, _, _ => none
  | _ + 1, JVal.undef, _ => none
  | _ + 1, JVal.null, _ => some "null"
  | _ + 1, JVal.bool b, _ => some (if b then "true" else "false")
  | _ + 1, JVal.num q, _ => some (jsNumToString q)
  | _ + 1, JVal.str s, _ => some (jsonQuote s)
  | fuel + 1, JVal.arr xs, allowed =>
    some ("[" ++ String.intercalate ","
      (xs.toList.map (fun x => (jsonStringifyRF fuel x allowed).getD "null")) ++ "]")
  | fuel + 1, JVal.obj kvs, allowed =>
    some ("\x7b" ++ String.intercalate ","
      (allowed.filterMap (fun k =>
        match JKvs.get kvs k with
        | none => none
        | some v =>
          match jsonStringifyRF fuel v allowed with
          | none => none
          | some sv => some (jsonQuote k ++ ":" ++ sv))) ++ "\x7d")
  | _ + 1, JVal.jsmap _, _ =>
    -- a Map has no own enumerable properties
    some "\x7b\x7d"

/-- The own enumerable property names of a value, as `Object.keys` sees
them: an object's keys in insertion order, an array's index strings in
ascending order, nothing for anything else. -/
def jsObjectKeys : JVal → List String
  | JVal.obj kvs => kvs.keys
  | JVal.arr xs => (List.range xs.length).map (fun i => toString i)
  | _ => []

/-- `JSON.stringify(value, Object.keys(value).sort())` — the canonical
serialization used by `findOrCreateVar` (`part_004` line 283). -/
def jsonCanon (v : JVal) : String :=
  (jsonStringifyRF (jvalSize v) v (sortStr (jsObjectKeys v))).getD "undefined"

/-- Lift an optional string to a (possibly `undefined`) property value. -/
def optStr : Option String → JVal
  | none => JVal.undef
  | some s => JVal.str s

def optNum : Option Rat → JVal
  | none => JVal.undef
  | some q => JVal.num q

/-! ## Colors and paints -/

structure RGBA where
  r : Rat
  g : Rat
  b : Rat
  a : Rat
deriving DecidableEq, Repr

structure ColorValue where
  hex : String
  opacity : Rat
deriving DecidableEq, Repr

structure Vec2 where
  x : Rat
  y : Rat
deriving DecidableEq, Repr

structure GradStop where
  position : Rat
  color : RGBA
deriving DecidableEq, Repr

def hexDigit (n : Nat) : Char :=
  if n < 10 then Char.ofNat (48 + n) else Char.ofNat (87 + n)

def natToHexF : Nat → Nat → String
  | 0, _ => ""
  | _ + 1, 0 => ""
  | fuel + 1, n => natToHexF fuel (n / 16) ++ String.mk [hexDigit (n % 16)]

/-- `n.toString(16)` for a natural number (lowercase hex digits). -/
def natToHex (n : Nat) : String :=
  if n = 0 then "0" else natToHexF n n

/-- `convertColor` (`src/utils/common.ts` lines 145-156): channels are
rounded to 0-255, opacity is `round(opacity * alpha * 100) / 100`, and
the hex string comes from `((1<<24) + (r<<16) + (g<<8) + b).toString(16)
.slice(1).toUpperCase()`. -/
def convertColor (color : RGBA) (opacity : Rat := 1) : ColorValue :=
  let r := jsRound (color.r * 255)
  let g := jsRound (color.g * 255)
  let b := jsRound (color.b * 255)
  let a : Rat := (jsRound (opacity * color.a * 100) : Rat) / 100
  let hex := "#" ++ ((natToHex ((2 ^ 24 + r * 2 ^ 16 + g * 2 ^ 8 + b).toNat)).drop 1).toUpper
  ⟨hex, a⟩

/-- `formatRGBAColor` (`src/utils/common.ts` lines 165-173). -/
def formatRGBAColor (color : RGBA) (opacity : Rat := 1) : String :=
  let r := jsRound (color.r * 255)
  let g := jsRound (color.g * 255)
  let b := jsRound (color.b * 255)
  let a : Rat := (jsRound (opacity * color.a * 100) : Rat) / 100
  "rgba(" ++ toString r ++ ", " ++ toString g ++ ", " ++ toString b ++ ", "
    ++ jsNumToString a ++ ")"

/-- A raw Figma paint.  The constructors mirror the `raw.type` dispatch
of `parsePaint`; `other` carries the paint types the code does not
handle (the upstream schema also allows e.g. `VIDEO` and `PATTERN`
paints).  `visible` participates only in the strokes transformer's
filter. -/
inductive PaintKind where
  | solid (color : RGBA)
  | image (imageRef : Option String) (scaleMode : Option String)
  | gradient (ty : String) (handles : Option (List Vec2)) (stops : Option (List GradStop))
  | other (ty : String)
deriving DecidableEq, Repr

structure Paint where
  kind : PaintKind
  opacity : Option Rat := none
  visible : Option Bool := none
deriving DecidableEq, Repr

/-- The simplified fill produced by `parsePaint`; each constructor
records exactly the property keys the corresponding branch assigns. -/
inductive SimplifiedFill where
  | image (imageRef : Option String) (scaleMode : Option String)
  | solid (hex : String) (opacity : Rat)
  | gradient (ty : String) (handles : Option (List Vec2))
      (stops : List (Rat × ColorValue))
deriving DecidableEq, Repr

def gradientTypeNames : List String :=
  ["GRADIENT_LINEAR", "GRADIENT_RADIAL", "GRADIENT_ANGULAR", "GRADIENT_DIAMOND"]

/-- `parsePaint` (`src/services/simplify-node-response.ts` lines
350-382).  The `throw new Error("Unknown paint type: ...")` of the
source is the `Except.error` case; a gradient without `gradientStops`
models the `raw.gradientStops.map` crash. -/
def parsePaint (raw : Paint) : Except String SimplifiedFill :=
  match raw.kind with
  | PaintKind.image imageRef scaleMode => .ok (SimplifiedFill.image imageRef scaleMode)
  | PaintKind.solid color =>
    let cv := convertColor color (raw.opacity.getD 1)
    .ok (SimplifiedFill.solid cv.hex cv.opacity)
  | PaintKind.gradient ty handles stops =>
    if ty ∈ gradientTypeNames then
      match stops with
      | some ss =>
        .ok (SimplifiedFill.gradient ty handles
          (ss.map (fun s => (s.position, convertColor s.color))))
      | none => .error "TypeError: raw.gradientStops is undefined"
    else .error ("Unknown paint type: " ++ ty)
  | PaintKind.other ty => .error ("Unknown paint type: " ++ ty)

/-! ## Style values and their JS-object views -/

/-- The text style assembled by `parseNode` (`part_004` lines 412-427);
the object literal assigns all eight keys, some possibly `undefined`. -/
structure TextStyle where
  fontFamily : Option String := none
  fontWeight : Option Rat := none
  fontSize : Option Rat := none
  lineHeight : Option String := none
  letterSpacing : Option String := none
  textCase : Option String := none
  textAlignHorizontal : Option String := none
  textAlignVertical : Option String := none
deriving DecidableEq, Repr

/-- `SimplifiedStroke` (`transformers/style.ts`): `colors` always
assigned, the other keys only when set. -/
structure SimplifiedStroke where
  colors : List SimplifiedFill
  strokeWeight : Option String := none
  strokeDashes : Option (List Rat) := none
deriving DecidableEq, Repr

/-- `SimplifiedEffects` (`part_008` lines 10-14): each key assigned only
when the corresponding CSS string is non-empty. -/
structure SimplifiedEffects where
  boxShadow : Option String := none
  filter : Option String := none
  backdropFilter : Option String := none
deriving DecidableEq, Repr

/-- The filtered layout interned by `parseNode` (`part_004` lines
452-472): only these six properties survive, each assigned only when
its guard holds. -/
structure ImportantLayout where
  mode : Option String := none
  justifyContent : Option String := none
  alignItems : Option String := none
  gap : Option String := none
  padding : Option String := none
  wrap : Option Bool := none
deriving DecidableEq, Repr

/-- The union of values stored in `globalVars.styles`
(`StyleTypes` in `part_004` lines 55-61). -/
inductive StyleValue where
  | text (ts : TextStyle)
  | fills (fs : List SimplifiedFill)
  | strokes (s : SimplifiedStroke)
  | effects (e : SimplifiedEffects)
  | layout (l : ImportantLayout)
deriving DecidableEq, Repr

def Vec2.toJVal (v : Vec2) : JVal :=
  JVal.obj (JKvs.ofList [("x", JVal.num v.x), ("y", JVal.num v.y)])

def ColorValue.toJVal (c : ColorValue) : JVal :=
  JVal.obj (JKvs.ofList [("hex", JVal.str c.hex), ("opacity", JVal.num c.opacity)])

def SimplifiedFill.toJVal : SimplifiedFill → JVal
  | SimplifiedFill.image imageRef scaleMode =>
    JVal.obj (JKvs.ofList
      [("type", JVal.str "IMAGE"), ("imageRef", optStr imageRef),
       ("scaleMode", optStr scaleMode)])
  | SimplifiedFill.solid hex opacity =>
    JVal.obj (JKvs.ofList
      [("type", JVal.str "SOLID"), ("hex", JVal.str hex),
       ("opacity", JVal.num opacity)])
  | SimplifiedFill.gradient ty handles stops =>
    JVal.obj (JKvs.ofList
      [("type", JVal.str ty),
       ("gradientHandlePositions",
         match handles with
         | none => JVal.undef
         | some hs => JVal.arr (JList.ofList (hs.map Vec2.toJVal))),
       ("gradientStops", JVal.arr (JList.ofList (stops.map (fun st =>
         JVal.obj (JKvs.ofList
           [("position", JVal.num st.1), ("color", st.2.toJVal)])))))])

def TextStyle.toJVal (ts : TextStyle) : JVal :=
  JVal.obj (JKvs.ofList
    [("fontFamily", optStr ts.fontFamily),
     ("fontWeight", optNum ts.fontWeight),
     ("fontSize", optNum ts.fontSize),
     ("lineHeight", optStr ts.lineHeight),
     ("letterSpacing", optStr ts.letterSpacing),
     ("textCase", optStr ts.textCase),
     ("textAlignHorizontal", optStr ts.textAlignHorizontal),
     ("textAlignVertical", optStr ts.textAlignVertical)])

def SimplifiedStroke.toJVal (s : SimplifiedStroke) : JVal :=
  JVal.obj (JKvs.ofList
    ([("colors", JVal.arr (JList.ofList (s.colors.map SimplifiedFill.toJVal)))]
      ++ (match s.strokeWeight with
          | none => [] | some w => [("strokeWeight", JVal.str w)])
      ++ (match s.strokeDashes with
          | none => []
          | some ds => [("strokeDashes", JVal.arr (JList.ofList (ds.map JVal.num)))])))

def SimplifiedEffects.toJVal (e : SimplifiedEffects) : JVal :=
  JVal.obj (JKvs.ofList
    ((match e.boxShadow with | none => [] | some s => [("boxShadow", JVal.str s)])
      ++ (match e.filter with | none => [] | some s => [("filter", JVal.str s)])
      ++ (match e.backdropFilter with
          | none => [] | some s => [("backdropFilter", JVal.str s)])))

def ImportantLayout.toJVal (l : ImportantLayout) : JVal :=
  JVal.obj (JKvs.ofList
    ((match l.mode with | none => [] | some s => [("mode", JVal.str s)])
      ++ (match l.justifyContent with
          | none => [] | some s => [("justifyContent", JVal.str s)])
      ++ (match l.alignItems with | none => [] | some s => [("alignItems", JVal.str s)])
      ++ (match l.gap with | none => [] | some s => [("gap", JVal.str s)])
      ++ (match l.padding with | none => [] | some s => [("padding", JVal.str s)])
      ++ (match l.wrap with | none => [] | some b => [("wrap", JVal.bool b)])))

def StyleValue.toJVal : StyleValue → JVal
  | StyleValue.text ts => ts.toJVal
  | StyleValue.fills fs => JVal.arr (JList.ofList (fs.map SimplifiedFill.toJVal))
  | StyleValue.strokes s => s.toJVal
  | StyleValue.effects e => e.toJVal
  | StyleValue.layout l => l.toJVal

/-! ## The style interner -/

/-- A style id.  The code draws `prefix_XXXXXX` with six random
uppercase alphanumerics (`generateVarId`, `common.ts` 180-190) and
relies on the draws being fresh; the model replaces the random suffix by
a deterministic fresh serial. -/
structure StyleId where
  pfx : String
  serial : Nat
deriving DecidableEq, Repr

def renderStyleId (i : StyleId) : String := i.pfx ++ "_" ++ toString i.serial

structure TableCounter where
  row_count : Nat
  rows_seen : List (String × Nat)
deriving DecidableEq, Repr

/-- `GlobalVars` (`part_004` lines 67-73), plus the id-generator state
`counter` (see `generateVarId`). -/
structure GlobalVars where
  styles : List (StyleId × StyleValue)
  lookup : List (String × StyleId)
  usageCount : List (StyleId × Nat)
  nodeSeenCount : List (String × Nat)
  tableCounters : List (String × TableCounter)
  counter : Nat
deriving DecidableEq, Repr

def emptyGlobalVars : GlobalVars := ⟨[], [], [], [], [], 0⟩

/-- `generateVarId(prefix)`: a fresh id (see `StyleId`). -/
def generateVarId (pfx : String) (ctr : Nat) : StyleId × Nat :=
  (⟨pfx, ctr⟩, ctr + 1)

/-- The canonical serialization `JSON.stringify(value,
Object.keys(value).sort())` of a style value (`part_004` line 283). -/
def valueStr (value : StyleValue) : String := jsonCanon value.toJVal

/-- `findOrCreateVar` (`part_004` lines 281-300). -/
def findOrCreateVar (g : GlobalVars) (value : StyleValue) (pfx : String) :
    StyleId × GlobalVars :=
  let vs := valueStr value
  match aget g.lookup vs with
  | some existingVarId =>
    let newCount := (aget g.usageCount existingVarId).getD 0 + 1
    (existingVarId, { g with usageCount := aset g.usageCount existingVarId newCount })
  | none =>
    let (varId, ctr) := generateVarId pfx g.counter
    (varId,
      { g with
          styles := aset g.styles varId value,
          lookup := aset g.lookup vs varId,
          usageCount := aset g.usageCount varId 1,
          counter := ctr })

/-! ## Raw Figma nodes

The upstream response is schema-flexible; the embedding keeps every
field the simplifier reads, each optional (`none` = property absent /
`undefined`).  `children` is a plain (possibly empty) list: the code
always guards `hasValue("children", n)` together with a length test, so
"absent" and "empty array" are indistinguishable to it. -/

structure Rect4 where
  x : Rat
  y : Rat
  width : Rat
  height : Rat
deriving DecidableEq, Repr

/-- A raw effect.  The constructors mirror the effect `type` dispatch of
`buildSimplifiedEffects` (`part_008`); required fields follow the
upstream schema types the code relies on.  `visible` is the JS
truthiness of `effect.visible`. -/
inductive RawEffect where
  | dropShadow (offset : Vec2) (radius : Rat) (spread : Option Rat) (color : RGBA)
      (visible : Bool)
  | innerShadow (offset : Vec2) (radius : Rat) (spread : Option Rat) (color : RGBA)
      (visible : Bool)
  | layerBlur (radius : Rat) (visible : Bool)
  | backgroundBlur (radius : Rat) (visible : Bool)
  | otherEffect (ty : String) (visible : Bool)
deriving DecidableEq, Repr

def RawEffect.visible : RawEffect → Bool
  | RawEffect.dropShadow _ _ _ _ v => v
  | RawEffect.innerShadow _ _ _ _ v => v
  | RawEffect.layerBlur _ v => v
  | RawEffect.backgroundBlur _ v => v
  | RawEffect.otherEffect _ v => v

/-- The raw `style` object of a TEXT node.  `otherKeys` counts further
properties of the schema-flexible record not modelled here; they only
matter through `Object.keys(n.style).length`. -/
structure RawStyle where
  fontFamily : Option String := none
  fontWeight : Option Rat := none
  fontSize : Option Rat := none
  lineHeightPx : Option Rat := none
  letterSpacing : Option Rat := none
  textCase : Option String := none
  textAlignHorizontal : Option String := none
  textAlignVertical : Option String := none
  otherKeys : Nat := 0
deriving DecidableEq, Repr

def RawStyle.keyCount (s : RawStyle) : Nat :=
  (if s.fontFamily.isSome then 1 else 0) + (if s.fontWeight.isSome then 1 else 0)
    + (if s.fontSize.isSome then 1 else 0) + (if s.lineHeightPx.isSome then 1 else 0)
    + (if s.letterSpacing.isSome then 1 else 0) + (if s.textCase.isSome then 1 else 0)
    + (if s.textAlignHorizontal.isSome then 1 else 0)
    + (if s.textAlignVertical.isSome then 1 else 0) + s.otherKeys

/-- The non-recursive payload of a raw node. -/
structure NodeData where
  id : String
  name : String
  type : String
  visible : Option Bool := none
  style : Option RawStyle := none
  fills : Option (List Paint) := none
  strokes : Option (List Paint) := none
  strokeWeight : Option Rat := none
  individualStrokeWeights : Option (Rat × Rat × Rat × Rat) := none
  strokeDashes : Option (List Rat) := none
  effects : Option (List RawEffect) := none
  characters : Option String := none
  opacity : Option Rat := none
  cornerRadius : Option Rat := none
  rectangleCornerRadii : Option (List Rat) := none
  componentId : Option String := none
  componentProperties : Option (List (String × String × String)) := none
  clipsContent : Option Bool := none
  layoutMode : Option String := none
  overflowDirection : Option String := none
  primaryAxisAlignItems : Option String := none
  counterAxisAlignItems : Option String := none
  layoutAlign : Option String := none
  layoutWrap : Option String := none
  itemSpacing : Option Rat := none
  paddingTop : Option Rat := none
  paddingRight : Option Rat := none
  paddingBottom : Option Rat := none
  paddingLeft : Option Rat := none
  absoluteBoundingBox : Option Rect4 := none
  layoutSizingHorizontal : Option String := none
  layoutSizingVertical : Option String := none
  layoutGrow : Option Rat := none
  layoutPositioning : Option String := none
  preserveRatio : Option Bool := none
deriving DecidableEq, Repr

mutual

inductive FigmaNode where
  | mk (data : NodeData) (children : FigmaNodes)
deriving DecidableEq, Repr

inductive FigmaNodes where
  | nil : FigmaNodes
  | cons (hd : FigmaNode) (tl : FigmaNodes) : FigmaNodes
deriving DecidableEq, Repr

end

def FigmaNode.data : FigmaNode → NodeData
  | FigmaNode.mk d _ => d

def FigmaNode.children : FigmaNode → FigmaNodes
  | FigmaNode.mk _ c => c

def FigmaNodes.toList : FigmaNodes → List FigmaNode
  | FigmaNodes.nil => []
  | FigmaNodes.cons x xs => x :: FigmaNodes.toList xs

def FigmaNodes.ofList : List FigmaNode → FigmaNodes
  | [] => FigmaNodes.nil
  | x :: xs => FigmaNodes.cons x (FigmaNodes.ofList xs)

def FigmaNodes.length : FigmaNodes → Nat
  | FigmaNodes.nil => 0
  | FigmaNodes.cons _ xs => 1 + FigmaNodes.length xs

mutual

/-- Structural size, used as the fuel bound of `parseNode`. -/
def nodeSize : FigmaNode → Nat
  | FigmaNode.mk _ kids => nodesSize kids + 1

def nodesSize : FigmaNodes → Nat
  | FigmaNodes.nil => 1
  | FigmaNodes.cons x xs => nodeSize x + nodesSize xs + 1

end

/-- Modelled from the spec: `isVisible` (the current `utils/common.ts`
is absent from `src/`) — "optional `visible` (defaults true)"; a node
with `visible === false` is skipped. -/
def isVisible (n : FigmaNode) : Bool := n.data.visible.getD true

/-- Paint visibility for the strokes transformer (same default). -/
def isVisiblePaint (p : Paint) : Bool := p.visible.getD true

/-- `isFrame` (`utils/identity.ts`): the raw record has a boolean
`clipsContent`. -/
def isFrameData (d : Option NodeData) : Bool :=
  match d with
  | none => false
  | some dd => dd.clipsContent.isSome

/-- `isLayout` (`utils/identity.ts`): the record carries an
`absoluteBoundingBox` with `x`/`y`/`width`/`height`. -/
def isLayoutData (d : NodeData) : Bool := d.absoluteBoundingBox.isSome

/-- `isRectangleCornerRadii` (`utils/identity.ts`): an array of exactly
four numbers. -/
def isRectangleCornerRadii (l : List Rat) : Bool := l.length = 4

/-- Modelled from the spec: `pixelRound` (current `utils/common.ts`
absent from `src/`) — "pixel values rounded to the nearest integer
(pixel-round policy: `round(x + ε)` where ε is a small positive bias)". -/
def pixelRound (q : Rat) : Int := jsRound (q + 1 / 10000)

/-- Modelled from the spec: `generateCSSShorthand` (current
`utils/common.ts` absent from `src/`) — a CSS `top right bottom left`
shorthand "collapsed to 1/2/3 values where symmetric". -/
def generateCSSShorthand (top right bottom left : Rat) : String :=
  let px := fun q => jsNumToString q ++ "px"
  if top = right ∧ right = bottom ∧ bottom = left then px top
  else if top = bottom ∧ right = left then px top ++ " " ++ px right
  else if right = left then px top ++ " " ++ px right ++ " " ++ px bottom
  else px top ++ " " ++ px right ++ " " ++ px bottom ++ " " ++ px left

/-! ## The effects transformer (`part_008`, the current
`transformers/effects.ts`) -/

def simplifyDropShadow (offset : Vec2) (radius : Rat) (spread : Option Rat)
    (color : RGBA) : String :=
  jsNumToString offset.x ++ "px " ++ jsNumToString offset.y ++ "px "
    ++ jsNumToString radius ++ "px " ++ jsNumToString (spread.getD 0) ++ "px "
    ++ formatRGBAColor color

def simplifyInnerShadow (offset : Vec2) (radius : Rat) (spread : Option Rat)
    (color : RGBA) : String :=
  "inset " ++ simplifyDropShadow offset radius spread color

def simplifyBlur (radius : Rat) : String := "blur(" ++ jsNumToString radius ++ "px)"

/-- `buildSimplifiedEffects` (`part_008` lines 16-50). -/
def buildSimplifiedEffects (n : FigmaNode) : SimplifiedEffects :=
  match n.data.effects with
  | none => {}
  | some rawEffects =>
    let effects := rawEffects.filter RawEffect.visible
    let dropShadows := effects.filterMap (fun e =>
      match e with
      | RawEffect.dropShadow o r s c _ => some (simplifyDropShadow o r s c)
      | _ => none)
    let innerShadows := effects.filterMap (fun e =>
      match e with
      | RawEffect.innerShadow o r s c _ => some (simplifyInnerShadow o r s c)
      | _ => none)
    let boxShadow := String.intercalate ", " (dropShadows ++ innerShadows)
    let filterBlurValues := String.intercalate " " (effects.filterMap (fun e =>
      match e with
      | RawEffect.layerBlur r _ => some (simplifyBlur r)
      | _ => none))
    let backdropFilterValues := String.intercalate " " (effects.filterMap (fun e =>
      match e with
      | RawEffect.backgroundBlur r _ => some (simplifyBlur r)
      | _ => none))
    { boxShadow := if boxShadow = "" then none else some boxShadow
      filter := if filterBlurValues = "" then none else some filterBlurValues
      backdropFilter :=
        if backdropFilterValues = "" then none else some backdropFilterValues }

/-! ## The strokes transformer -/

/-- Modelled from the spec: `buildSimplifiedStrokes`
(`transformers/style.ts` is absent from `src/`) — "set `colors` to
visible paints; if a uniform `strokeWeight` is present and > 0, emit
`{w}px`; if individual edge weights are present, emit a CSS-shorthand
string", plus the optional `strokeDashes` sequence of §3.  Paint
conversion goes through `parsePaint` and can therefore fail like the
fills path. -/
def buildSimplifiedStrokes (n : FigmaNode) : Except String SimplifiedStroke := do
  let colors ←
    match n.data.strokes with
    | none => pure []
    | some ps => (ps.filter isVisiblePaint).mapM parsePaint
  let weight :=
    match n.data.individualStrokeWeights with
    | some (t, r, b, l) => some (generateCSSShorthand t r b l)
    | none =>
      match n.data.strokeWeight with
      | some w => if w > 0 then some (jsNumToString w ++ "px") else none
      | none => none
  let dashes :=
    match n.data.strokeDashes with
    | some ds => if ds.isEmpty then none else some ds
    | none => none
  pure { colors := colors, strokeWeight := weight, strokeDashes := dashes }

/-! ## The layout transformer (`transformers/layout.ts`)

The produced `SimplifiedLayout` is modelled as the JS object it is: an
ordered property list (`List (String × JVal)`), because the caller
inspects `Object.keys(layout).length` and property presence (an
assigned-but-`undefined` key counts for `Object.keys`). -/

/-- Modelled from the spec: `isInAutoLayoutFlow` (`utils/identity.ts`
current version absent from `src/`) — "Auto-layout flow: a parent that
arranges its children along a primary axis"; a child that is absolutely
positioned is not in the flow. -/
def isInAutoLayoutFlow (n : FigmaNode) (parent : FigmaNode) : Bool :=
  (parent.data.layoutMode = some "HORIZONTAL" ∨ parent.data.layoutMode = some "VERTICAL")
    ∧ n.data.layoutPositioning ≠ some "ABSOLUTE"

/-- `getDirection` (`layout.ts` lines 121-141): both axes map
row→horizontal, column→vertical in the source. -/
def getDirection (_axis : String) (mode : String) : String :=
  if mode = "row" then "horizontal" else "vertical"

/-- `convertAlign` (`layout.ts` lines 46-93). -/
def convertAlign (axisAlign : String) (children : FigmaNodes) (axis : String)
    (mode : String) : Option String :=
  let direction := getDirection axis mode
  let kids := children.toList
  let shouldStretch :=
    kids.length > 0 ∧ kids.all (fun c =>
      if c.data.layoutPositioning = some "ABSOLUTE" then true
      else if direction = "horizontal" then
        c.data.layoutSizingHorizontal = some "FILL"
      else c.data.layoutSizingVertical = some "FILL")
  if shouldStretch then some "stretch"
  else if axisAlign = "MIN" then none
  else if axisAlign = "MAX" then some "flex-end"
  else if axisAlign = "CENTER" then some "center"
  else if axisAlign = "SPACE_BETWEEN" then some "space-between"
  else if axisAlign = "BASELINE" then some "baseline"
  else none

/-- `convertSelfAlign` (`layout.ts` lines 95-109). -/
def convertSelfAlign (align : Option String) : Option String :=
  match align with
  | some "MAX" => some "flex-end"
  | some "CENTER" => some "center"
  | some "STRETCH" => some "stretch"
  | _ => none

/-- `convertSizing` (`layout.ts` lines 112-119). -/
def convertSizing (s : Option String) : Option String :=
  match s with
  | some "FIXED" => some "fixed"
  | some "FILL" => some "fill"
  | some "HUG" => some "hug"
  | _ => none

/-- `buildSimplifiedFrameValues` (`layout.ts` lines 143-193), as the
ordered JS property list it builds. -/
def buildSimplifiedFrameValues (n : FigmaNode) : List (String × JVal) :=
  if ¬ isFrameData (some n.data) then [("mode", JVal.str "none")]
  else
    let mode :=
      match n.data.layoutMode with
      | none => "none"
      | some "NONE" => "none"
      | some "HORIZONTAL" => "row"
      | some _ => "column"
    let fv : List (String × JVal) := [("mode", JVal.str mode)]
    let overflowScroll : List JVal :=
      (if containsSub (n.data.overflowDirection.getD "") "HORIZONTAL" then
        [JVal.str "x"] else [])
        ++ (if containsSub (n.data.overflowDirection.getD "") "VERTICAL" then
          [JVal.str "y"] else [])
    let fv := if overflowScroll.length > 0 then
        aset fv "overflowScroll" (JVal.arr (JList.ofList overflowScroll)) else fv
    if mode = "none" then fv
    else
      let fv := aset fv "justifyContent"
        (optStr (convertAlign (n.data.primaryAxisAlignItems.getD "MIN") n.children
          "primary" mode))
      let fv := aset fv "alignItems"
        (optStr (convertAlign (n.data.counterAxisAlignItems.getD "MIN") n.children
          "counter" mode))
      let fv := aset fv "alignSelf" (optStr (convertSelfAlign n.data.layoutAlign))
      let fv := aset fv "wrap"
        (if n.data.layoutWrap = some "WRAP" then JVal.bool true else JVal.undef)
      let fv := aset fv "gap"
        (match n.data.itemSpacing with
          | some q => if q ≠ 0 then JVal.str (jsNumToString q ++ "px") else JVal.undef
          | none => JVal.undef)
      let padTruthy : Option Rat → Bool := fun o =>
        match o with | some q => decide (q ≠ 0) | none => false
      let fv :=
        if padTruthy n.data.paddingTop ∨ padTruthy n.data.paddingBottom
            ∨ padTruthy n.data.paddingLeft ∨ padTruthy n.data.paddingRight then
          aset fv "padding" (JVal.str (generateCSSShorthand
            (n.data.paddingTop.getD 0) (n.data.paddingRight.getD 0)
            (n.data.paddingBottom.getD 0) (n.data.paddingLeft.getD 0)))
        else fv
      fv

/-- `buildSimplifiedLayoutValues` (`layout.ts` lines 195-269). -/
def buildSimplifiedLayoutValues (n : FigmaNode) (parent : Option FigmaNode)
    (mode : String) : Option (List (String × JVal)) :=
  if ¬ isLayoutData n.data then none
  else
    let lv : List (String × JVal) := [("mode", JVal.str mode)]
    let lv := aset lv "sizing" (JVal.obj (JKvs.ofList
      [("horizontal", optStr (convertSizing n.data.layoutSizingHorizontal)),
       ("vertical", optStr (convertSizing n.data.layoutSizingVertical))]))
    let lv :=
      match parent with
      | some p =>
        if isFrameData (some p.data) ∧ ¬ isInAutoLayoutFlow n p then
          let lv := if n.data.layoutPositioning = some "ABSOLUTE" then
              aset lv "position" (JVal.str "absolute") else lv
          match n.data.absoluteBoundingBox, p.data.absoluteBoundingBox with
          | some nb, some pb =>
            aset lv "locationRelativeToParent" (JVal.obj (JKvs.ofList
              [("x", JVal.num (pixelRound (nb.x - pb.x) : Int)),
               ("y", JVal.num (pixelRound (nb.y - pb.y) : Int))]))
          | _, _ => lv
        else lv
      | none => lv
    let lv :=
      match n.data.absoluteBoundingBox with
      | none => lv
      | some bb =>
        let growTruthy : Bool :=
          match n.data.layoutGrow with | some q => decide (q ≠ 0) | none => false
        let dims : List (String × JVal) :=
          if mode = "row" then
            (if growTruthy = false ∧ n.data.layoutSizingHorizontal = some "FIXED" then
              [("width", JVal.num bb.width)] else [])
              ++ (if n.data.layoutAlign ≠ some "STRETCH"
                    ∧ n.data.layoutSizingVertical = some "FIXED" then
                [("height", JVal.num bb.height)] else [])
          else if mode = "column" then
            ((if n.data.layoutAlign ≠ some "STRETCH"
                  ∧ n.data.layoutSizingHorizontal = some "FIXED" then
              [("width", JVal.num bb.width)] else [])
              ++ (if growTruthy = false ∧ n.data.layoutSizingVertical = some "FIXED" then
                [("height", JVal.num bb.height)] else []))
              ++ (if n.data.preserveRatio = some true then
                [("aspectRatio", JVal.num (bb.width / bb.height))] else [])
          else
            (if n.data.layoutSizingHorizontal = none
                ∨ n.data.layoutSizingHorizontal = some "FIXED" then
              [("width", JVal.num bb.width)] else [])
              ++ (if n.data.layoutSizingVertical = none
                    ∨ n.data.layoutSizingVertical = some "FIXED" then
                [("height", JVal.num bb.height)] else [])
        if dims.length > 0 then
          let dims :=
            match aget dims "width" with
            | some (JVal.num w) =>
              if w ≠ 0 then aset dims "width" (JVal.num (pixelRound w : Int)) else dims
            | _ => dims
          let dims :=
            match aget dims "height" with
            | some (JVal.num h) =>
              if h ≠ 0 then aset dims "height" (JVal.num (pixelRound h : Int)) else dims
            | _ => dims
          aset lv "dimensions" (JVal.obj (JKvs.ofList dims))
        else lv
    some lv

/-- `buildSimplifiedLayout` (`layout.ts` lines 35-43): the spread merge
`{ ...frameValues, ...layoutValues }`. -/
def buildSimplifiedLayout (n : FigmaNode) (parent : Option FigmaNode) :
    List (String × JVal) :=
  let frameValues := buildSimplifiedFrameValues n
  let mode :=
    match aget frameValues "mode" with
    | some (JVal.str m) => m
    | _ => "none"
  let layoutValues := (buildSimplifiedLayoutValues n parent mode).getD []
  layoutValues.foldl (fun acc kv => aset acc kv.1 kv.2) frameValues

/-! ## Structural and content signatures (`part_004` lines 307-364) -/

def typeOrUnknown (t : String) : String := if t = "" then "UNKNOWN" else t

mutual

/-- `collectStructure` inside `getNodeStructureSignature` (`part_004`
lines 310-325): record type, child count and sorted distinct child
types for levels 0-2, recursing into the first three children. -/
def collectStructure : FigmaNode → Nat → List String
  | FigmaNode.mk d kids, level =>
    if level > 2 then []
    else
      let base := [toString level ++ ":" ++ typeOrUnknown d.type]
      if kids.length > 0 then
        let childTypes := kids.toList.map (fun c => typeOrUnknown c.data.type)
        base
          ++ [toString level ++ ":children=" ++ toString kids.length,
              toString level ++ ":types="
                ++ String.intercalate "," (sortStr (dedupFirst childTypes))]
          ++ collectStructureTake 3 kids (level + 1)
      else base

/-- `n.children.slice(0, 3).forEach(...)`. -/
def collectStructureTake : Nat → FigmaNodes → Nat → List String
  | 0, _, _ => []
  | _ + 1, FigmaNodes.nil, _ => []
  | k + 1, FigmaNodes.cons c rest, level =>
    collectStructure c level ++ collectStructureTake k rest level

end

/-- `getNodeStructureSignature` (`part_004` lines 307-329). -/
def getNodeStructureSignature (n : FigmaNode) : String :=
  String.intercalate "|" (collectStructure n 0)

mutual

/-- `extractContent` inside `getContentSignature` (`part_004` lines
339-358): TEXT nodes contribute their first 20 trimmed characters,
FRAME/GROUP/INSTANCE nodes contribute `TYPE[childCount]`, recursing
into the first five children. -/
def extractContent : FigmaNode → List String
  | FigmaNode.mk d kids =>
    let own :=
      if d.type = "TEXT" ∧ d.characters.isSome then
        let t := jsTrim (d.characters.getD "")
        if t ≠ "" then [(t.toList.take 20).asString] else []
      else if d.type = "FRAME" ∨ d.type = "GROUP" ∨ d.type = "INSTANCE" then
        [d.type ++ "[" ++ toString kids.length ++ "]"]
      else []
    own ++ extractContentTake 5 kids

def extractContentTake : Nat → FigmaNodes → List String
  | 0, _ => []
  | _ + 1, FigmaNodes.nil => []
  | k + 1, FigmaNodes.cons c rest => extractContent c ++ extractContentTake k rest

end

/-- `getContentSignature` (`part_004` lines 336-364). -/
def getContentSignature (n : FigmaNode) : String :=
  let contentParts := extractContent n
  if contentParts.length > 0 then String.intercalate "|" contentParts
  else getNodeStructureSignature n

/-! ## The simplified node -/

inductive StyleSlot where
  | ref (id : StyleId)
  | lit (v : StyleValue)
deriving DecidableEq, Repr

/-- The non-child payload of a `SimplifiedNode` (`part_004` lines
91-115), fields in assignment order. -/
structure SNodeCore where
  id : String
  name : String
  type : String
  componentId : Option String := none
  componentProperties : Option (List (String × String × String)) := none
  textStyle : Option StyleSlot := none
  fills : Option StyleSlot := none
  strokes : Option StyleSlot := none
  effects : Option StyleSlot := none
  layout : Option StyleSlot := none
  text : Option String := none
  opacity : Option Rat := none
  borderRadius : Option String := none
deriving DecidableEq, Repr

mutual

inductive SimplifiedNode where
  | mk (core : SNodeCore) (children : SimplifiedNodes)
deriving DecidableEq, Repr

inductive SimplifiedNodes where
  | nil : SimplifiedNodes
  | cons (hd : SimplifiedNode) (tl : SimplifiedNodes) : SimplifiedNodes
deriving DecidableEq, Repr

end

def SimplifiedNode.core : SimplifiedNode → SNodeCore
  | SimplifiedNode.mk c _ => c

def SimplifiedNode.children : SimplifiedNode → SimplifiedNodes
  | SimplifiedNode.mk _ k => k

def SimplifiedNodes.toList : SimplifiedNodes → List SimplifiedNode
  | SimplifiedNodes.nil => []
  | SimplifiedNodes.cons x xs => x :: SimplifiedNodes.toList xs

def SimplifiedNodes.ofList : List SimplifiedNode → SimplifiedNodes
  | [] => SimplifiedNodes.nil
  | x :: xs => SimplifiedNodes.cons x (SimplifiedNodes.ofList xs)

/-! ## The slot builders of `parseNode` (`part_004` lines 409-497) -/

/-- Lines 410-428: the text style, built when the raw `style` object is
present and non-empty.  `lineHeight`/`letterSpacing` follow the JS
truthiness guards of lines 416-423. -/
def textStyleValue (n : FigmaNode) : Option StyleValue :=
  match n.data.style with
  | none => none
  | some style =>
    if style.keyCount = 0 then none
    else
      some (StyleValue.text
        { fontFamily := style.fontFamily
          fontWeight := style.fontWeight
          fontSize := style.fontSize
          lineHeight :=
            match style.lineHeightPx, style.fontSize with
            | some l, some f =>
              if l ≠ 0 ∧ f ≠ 0 then some (jsNumToString (l / f) ++ "em") else none
            | _, _ => none
          letterSpacing :=
            match style.letterSpacing, style.fontSize with
            | some ls, some f =>
              if ls ≠ 0 ∧ f ≠ 0 then
                some (jsNumToString (ls / f * 100) ++ "%") else none
            | _, _ => none
          textCase := style.textCase
          textAlignHorizontal := style.textAlignHorizontal
          textAlignVertical := style.textAlignVertical })

/-- Lines 432-436: `n.fills.map(parsePaint)` when fills are present and
non-empty; a paint the code cannot handle propagates its exception. -/
def fillsValue (n : FigmaNode) : Except String (Option StyleValue) :=
  match n.data.fills with
  | some fs =>
    if fs.length ≠ 0 then do
      let ps ← fs.mapM parsePaint
      pure (some (StyleValue.fills ps))
    else pure none
  | none => pure none

/-- Lines 438-441: the strokes value, interned when `colors` is
non-empty. -/
def strokesValue (n : FigmaNode) : Except String (Option StyleValue) := do
  let s ← buildSimplifiedStrokes n
  pure (if s.colors.length ≠ 0 then some (StyleValue.strokes s) else none)

/-- Lines 443-446: the effects value, interned when non-empty. -/
def effectsValue (n : FigmaNode) : Option StyleValue :=
  let e := buildSimplifiedEffects n
  if e.boxShadow.isSome ∨ e.filter.isSome ∨ e.backdropFilter.isSome then
    some (StyleValue.effects e)
  else none

def ImportantLayout.keyCount (l : ImportantLayout) : Nat :=
  (if l.mode.isSome then 1 else 0) + (if l.justifyContent.isSome then 1 else 0)
    + (if l.alignItems.isSome then 1 else 0) + (if l.gap.isSome then 1 else 0)
    + (if l.padding.isSome then 1 else 0) + (if l.wrap.isSome then 1 else 0)

/-- Lines 452-472: keep only `mode` (when not `none`), `justifyContent`,
`alignItems`, `gap`, `padding` and `wrap` of the built layout, each
under its JS truthiness guard. -/
def importantLayoutOf (layout : List (String × JVal)) : ImportantLayout :=
  { mode :=
      match aget layout "mode" with
      | some (JVal.str m) => if m ≠ "" ∧ m ≠ "none" then some m else none
      | _ => none
    justifyContent :=
      match aget layout "justifyContent" with
      | some (JVal.str s) => if s ≠ "" then some s else none
      | _ => none
    alignItems :=
      match aget layout "alignItems" with
      | some (JVal.str s) => if s ≠ "" then some s else none
      | _ => none
    gap :=
      match aget layout "gap" with
      | some (JVal.str s) => if s ≠ "" then some s else none
      | _ => none
    padding :=
      match aget layout "padding" with
      | some (JVal.str s) => if s ≠ "" then some s else none
      | _ => none
    wrap :=
      match aget layout "wrap" with
      | some (JVal.bool true) => some true
      | _ => none }

/-- Lines 449-478: build the layout, require more than one property,
filter to the important ones, and intern only when something meaningful
survives. -/
def layoutValue (n : FigmaNode) (parent : Option FigmaNode) : Option StyleValue :=
  let layout := buildSimplifiedLayout n parent
  if layout.length > 1 then
    let importantLayout := importantLayoutOf layout
    if importantLayout.keyCount > 0 ∧ importantLayout.mode ≠ some "none" then
      some (StyleValue.layout importantLayout)
    else none
  else none

/-- Line 481-483: `text` when the characters are truthy (non-empty). -/
def textOf (n : FigmaNode) : Option String :=
  match n.data.characters with
  | some s => if s ≠ "" then some s else none
  | none => none

/-- Lines 488-490. -/
def opacityOf (n : FigmaNode) : Option Rat :=
  match n.data.opacity with
  | some o => if o ≠ 1 then some o else none
  | none => none

/-- Lines 492-497: uniform corner radius, overridden by the four-value
shorthand when `rectangleCornerRadii` is a four-number array. -/
def borderRadiusOf (n : FigmaNode) : Option String :=
  let br :=
    match n.data.cornerRadius with
    | some c => some (jsNumToString c ++ "px")
    | none => none
  match n.data.rectangleCornerRadii with
  | some l =>
    match l with
    | [a, b, c, d] =>
      some (jsNumToString a ++ "px " ++ jsNumToString b ++ "px "
        ++ jsNumToString c ++ "px " ++ jsNumToString d ++ "px")
    | _ => br
  | none => br

/-- Intern an optional style value (no value, no state change). -/
def internOpt (g : GlobalVars) (v : Option StyleValue) (pfx : String) :
    Option StyleId × GlobalVars :=
  match v with
  | none => (none, g)
  | some value =>
    let (i, g') := findOrCreateVar g value pfx
    (some i, g')

/-- Lines 384-497 of `parseNode`: the per-node (non-recursive) part —
INSTANCE metadata, the five interned style slots in source order
(text style, fills, strokes, effects, layout), then text, opacity and
border radius. -/
def parseAttrs (g : GlobalVars) (n : FigmaNode) (parent : Option FigmaNode) :
    Except String (SNodeCore × GlobalVars) := do
  let (tsId, g1) := internOpt g (textStyleValue n) "style"
  let fv ← fillsValue n
  let (fillId, g2) := internOpt g1 fv "fill"
  let sv ← strokesValue n
  let (strokeId, g3) := internOpt g2 sv "stroke"
  let (effectId, g4) := internOpt g3 (effectsValue n) "effect"
  let (layoutId, g5) := internOpt g4 (layoutValue n parent) "layout"
  pure
    ({ id := n.data.id
       name := n.data.name
       type := n.data.type
       componentId := if n.data.type = "INSTANCE" then n.data.componentId else none
       componentProperties :=
         if n.data.type = "INSTANCE" then n.data.componentProperties else none
       textStyle := tsId.map StyleSlot.ref
       fills := fillId.map StyleSlot.ref
       strokes := strokeId.map StyleSlot.ref
       effects := effectId.map StyleSlot.ref
       layout := layoutId.map StyleSlot.ref
       text := textOf n
       opacity := opacityOf n
       borderRadius := borderRadiusOf n }, g5)

/-! ## Table detection and row dedup (`part_004` lines 499-526, 558-574) -/

/-- Lines 503-515: more than three children, and some structure
signature of the first ten occurring at least three times. -/
def tableDetect (n : FigmaNode) : Bool :=
  n.children.length > 3 ∧
    (let sigCounts := ((n.children.toList.take 10).map getNodeStructureSignature).foldl
        (fun m sig => aset m sig ((aget m sig).getD 0 + 1)) ([] : List (String × Nat))
     (sigCounts.map (·.2)).foldl max 0 ≥ 3)

/-- Lines 559-574: consult the table counter for one child; returns
whether to keep the child, and the updated state.  A first occurrence is
recorded with count 1 and bumps `row_count`; a repeat bumps the count
and the child is kept only while `row_count` is still below 3. -/
def dedupStep (g : GlobalVars) (tableId : String) (child : FigmaNode) :
    Bool × GlobalVars :=
  match aget g.tableCounters tableId with
  | none => (true, g)
  | some tc =>
    let signature := getContentSignature child
    let seenCount := (aget tc.rows_seen signature).getD 0
    if seenCount > 0 then
      let tc2 := { tc with rows_seen := aset tc.rows_seen signature (seenCount + 1) }
      (decide (tc.row_count < 3),
        { g with tableCounters := aset g.tableCounters tableId tc2 })
    else
      let tc2 : TableCounter :=
        { row_count := tc.row_count + 1, rows_seen := aset tc.rows_seen signature 1 }
      (true, { g with tableCounters := aset g.tableCounters tableId tc2 })

/-- The depth-limit placeholder text of `part_004` line 380. -/
def depthWarn (depth : Nat) : String :=
  "（深度 " ++ toString depth ++ " 超過限制，省略子節點）"

def depthExceeded (depth : Nat) : Option Nat → Bool
  | some m => decide (depth > m)
  | none => false

/-- `type === "VECTOR"` rewrite (`part_004` lines 600-603). -/
def vectorRewrite (core : SNodeCore) : SNodeCore :=
  if core.type = "VECTOR" then { core with type := "IMAGE-SVG" } else core

mutual

/-- `parseNode` (`part_004` lines 366-606), fuel-indexed.  The fuel-0
branch is an artifact of the embedding and is unreachable from the
`parseNode` wrapper (each recursive call strictly decreases
`nodeSize`/`nodesSize`, which bound the required fuel). -/
def parseNodeF : Nat → GlobalVars → FigmaNode → Option FigmaNode → Nat →
    Option String → Option Nat → Except String (SimplifiedNode × GlobalVars)
  | 0, _, _, _, _, _, _ => .error "out of fuel"
  | fuel + 1, g, n, parent, depth, parentContext, maxDepth =>
    -- depth clamp, lines 374-382
    if depthExceeded depth maxDepth then
      .ok (SimplifiedNode.mk
        { id := "depth_limit_" ++ n.data.id
          name := n.data.name
          type := "DEPTH_LIMIT"
          text := some (depthWarn depth) } SimplifiedNodes.nil, g)
    else do
      let (core, g1) ← parseAttrs g n parent
      -- container classification, lines 499-526
      let isTable := tableDetect n
      let containerType := if isTable then some "table_container" else parentContext
      let g2 :=
        if isTable ∧ (aget g1.tableCounters n.data.id).isNone then
          { g1 with tableCounters := aset g1.tableCounters n.data.id ⟨0, []⟩ }
        else g1
      -- children, lines 530-598
      if n.children.length > 0 then
        let useCounter := containerType = some "table_container"
          ∧ (aget g2.tableCounters n.data.id).isSome
        let (children, g3) ←
          parseChildrenF fuel g2 n n.children depth containerType maxDepth useCounter
        -- summary for omitted rows, lines 583-593
        let (children, g4) :=
          if useCounter then
            match aget g3.tableCounters n.data.id with
            | some tc =>
              if tc.rows_seen.length > 0 then
                let totalRows := (tc.rows_seen.map (·.2)).sum
                if totalRows > 3 then
                  let (sid, ctr) := generateVarId "node" g3.counter
                  (children ++ [SimplifiedNode.mk
                    { id := "summary_" ++ renderStyleId sid
                      name := "Repetitive content summary"
                      type := "SUMMARY"
                      text := some ("(Omitted " ++ toString (totalRows - 3)
                        ++ " similar items)") } SimplifiedNodes.nil],
                    { g3 with counter := ctr })
                else (children, g3)
              else (children, g3)
            | none => (children, g3)
          else (children, g3)
        .ok (SimplifiedNode.mk (vectorRewrite core) (SimplifiedNodes.ofList children), g4)
      else
        .ok (SimplifiedNode.mk (vectorRewrite core) SimplifiedNodes.nil, g2)

/-- The child loop of `parseNode` (`part_004` lines 540-580): visibility
gate, INSTANCE wrapper elision, table-row dedup, then recursion with
`depth+1` and the current container context. -/
def parseChildrenF : Nat → GlobalVars → FigmaNode → FigmaNodes → Nat →
    Option String → Option Nat → Bool → Except String (List SimplifiedNode × GlobalVars)
  | 0, _, _, _, _, _, _, _ => .error "out of fuel"
  | _ + 1, g, _, FigmaNodes.nil, _, _, _, _ => .ok ([], g)
  | fuel + 1, g, n, FigmaNodes.cons child rest, depth, containerType, maxDepth,
      useCounter =>
    if ¬ isVisible child then
      parseChildrenF fuel g n rest depth containerType maxDepth useCounter
    else
      -- wrapper elision, lines 546-556
      let elideTarget : Option FigmaNode :=
        if child.data.type = "INSTANCE" then
          match child.children with
          | FigmaNodes.cons gc FigmaNodes.nil => some gc
          | _ => none
        else none
      match elideTarget with
      | some grandchild => do
        let (snode, g1) ←
          parseNodeF fuel g grandchild (some n) (depth + 1) containerType maxDepth
        let (restNodes, g2) ←
          parseChildrenF fuel g1 n rest depth containerType maxDepth useCounter
        .ok (snode :: restNodes, g2)
      | none =>
        -- table-row dedup, lines 559-574
        let (keep, gd) :=
          if useCounter then dedupStep g n.data.id child else (true, g)
        if keep then do
          let (snode, g1) ←
            parseNodeF fuel gd child (some n) (depth + 1) containerType maxDepth
          let (restNodes, g2) ←
            parseChildrenF fuel g1 n rest depth containerType maxDepth useCounter
          .ok (snode :: restNodes, g2)
        else
          parseChildrenF fuel gd n rest depth containerType maxDepth useCounter

end

/-- `parseNode` with sufficient fuel. -/
def parseNode (g : GlobalVars) (n : FigmaNode) (parent : Option FigmaNode)
    (depth : Nat) (parentContext : Option String) (maxDepth : Option Nat) :
    Except String (SimplifiedNode × GlobalVars) :=
  parseNodeF (nodeSize n) g n parent depth parentContext maxDepth

/-! ## `optimizeStyles` (`part_004` lines 154-195) -/

/-- Lines 157-163: the ids whose usage count is below the threshold 3. -/
def stylesToInline (g : GlobalVars) : List StyleId :=
  (g.usageCount.filter (fun kv => kv.2 < 3)).map (·.1)

mutual

/-- `inlineStylesInNode` (lines 166-187).  The closure reads
`globalVars.styles` at call time — which, in `optimizeStyles`, is after
the clean-up loop has already deleted every id in `stylesToInline`, so
the lookup yields `undefined` and the slot is overwritten with
`undefined` (modelled as `none`) rather than with the literal value. -/
def inlineStylesInNode (styles : List (StyleId × StyleValue))
    (toInline : List StyleId) : SimplifiedNode → SimplifiedNode
  | SimplifiedNode.mk core kids =>
    let inlineSlot : Option StyleSlot → Option StyleSlot := fun slot =>
      match slot with
      | some (StyleSlot.ref i) =>
        if i ∈ toInline then
          match aget styles i with
          | some v => some (StyleSlot.lit v)
          | none => none
        else slot
      | other => other
    SimplifiedNode.mk
      { core with
          textStyle := inlineSlot core.textStyle
          fills := inlineSlot core.fills
          strokes := inlineSlot core.strokes
          effects := inlineSlot core.effects
          layout := inlineSlot core.layout }
      (inlineStylesInNodes styles toInline kids)

def inlineStylesInNodes (styles : List (StyleId × StyleValue))
    (toInline : List StyleId) : SimplifiedNodes → SimplifiedNodes
  | SimplifiedNodes.nil => SimplifiedNodes.nil
  | SimplifiedNodes.cons x xs =>
    SimplifiedNodes.cons (inlineStylesInNode styles toInline x)
      (inlineStylesInNodes styles toInline xs)

end

/-- `optimizeStyles` (lines 154-195): compute the low-usage ids, delete
them from `globalVars.styles` (lines 190-192), and only then map the
inliner over the nodes (line 194). -/
def optimizeStyles (nodes : List SimplifiedNode) (g : GlobalVars) :
    List SimplifiedNode × GlobalVars :=
  let toInline := stylesToInline g
  let styles2 := toInline.foldl (fun st i => aerase st i) g.styles
  let g2 := { g with styles := styles2 }
  (nodes.map (inlineStylesInNode styles2 toInline), g2)

/-- The root loop of `parseFigmaResponse` (lines 235-238), threading the
parse state left to right. -/
def parseRoots (g : GlobalVars) (roots : List FigmaNode) (maxDepth : Option Nat) :
    Except String (List SimplifiedNode × GlobalVars) :=
  match roots with
  | [] => .ok ([], g)
  | r :: rs => do
    let (nd, g1) ← parseNode g r none 0 none maxDepth
    let (nds, g2) ← parseRoots g1 rs maxDepth
    .ok (nd :: nds, g2)

/-- The node pipeline of `parseFigmaResponse` (lines 227-241): fresh
state, visibility filter, parse, then `optimizeStyles`. -/
def simplifyNodes (roots : List FigmaNode) (maxDepth : Option Nat) :
    Except String (List SimplifiedNode × GlobalVars) := do
  let (nodes, g) ← parseRoots emptyGlobalVars (roots.filter isVisible) maxDepth
  .ok (optimizeStyles nodes g)

/-! ## Emission: the simplified design as a JS value -/

def StyleSlot.toJVal : StyleSlot → JVal
  | StyleSlot.ref i => JVal.str (renderStyleId i)
  | StyleSlot.lit v => v.toJVal

/-- Optional properties are emitted as absent keys; a slot the broken
inline pass overwrote with `undefined` is likewise dropped both by
`JSON.stringify` and by `removeEmptyKeys`, so the two cases coincide at
emission. -/
def optField (k : String) : Option JVal → List (String × JVal)
  | none => []
  | some v => [(k, v)]

mutual

def SimplifiedNode.toJVal : SimplifiedNode → JVal
  | SimplifiedNode.mk core kids =>
    JVal.obj (JKvs.ofList
      ([("id", JVal.str core.id), ("name", JVal.str core.name),
        ("type", JVal.str core.type)]
        ++ optField "componentId" (core.componentId.map JVal.str)
        ++ optField "componentProperties" (core.componentProperties.map (fun props =>
          JVal.arr (JList.ofList (props.map (fun p =>
            JVal.obj (JKvs.ofList
              [("name", JVal.str p.1), ("value", JVal.str p.2.1),
               ("type", JVal.str p.2.2)]))))))
        ++ optField "textStyle" (core.textStyle.map StyleSlot.toJVal)
        ++ optField "fills" (core.fills.map StyleSlot.toJVal)
        ++ optField "strokes" (core.strokes.map StyleSlot.toJVal)
        ++ optField "effects" (core.effects.map StyleSlot.toJVal)
        ++ optField "layout" (core.layout.map StyleSlot.toJVal)
        ++ optField "text" (core.text.map JVal.str)
        ++ optField "opacity" (core.opacity.map JVal.num)
        ++ optField "borderRadius" (core.borderRadius.map JVal.str)
        ++ (match kids with
            | SimplifiedNodes.nil => []
            | _ => [("children", JVal.arr (SimplifiedNodes.toJList kids))])))

def SimplifiedNodes.toJList : SimplifiedNodes → JList
  | SimplifiedNodes.nil => JList.nil
  | SimplifiedNodes.cons x xs => JList.cons (SimplifiedNode.toJVal x) (SimplifiedNodes.toJList xs)

end

def TableCounter.toJVal (tc : TableCounter) : JVal :=
  JVal.obj (JKvs.ofList
    [("row_count", JVal.num tc.row_count),
     ("rows_seen", JVal.jsmap (JKvs.ofList
       (tc.rows_seen.map (fun kv => (kv.1, JVal.num kv.2)))))])

/-- `GlobalVars` as the JS object the design carries: `lookup`,
`nodeSeenCount` and `tableCounters` are `Map`s; the model-only id
counter is not a property of the JS object. -/
def GlobalVars.toJVal (g : GlobalVars) : JVal :=
  JVal.obj (JKvs.ofList
    [("styles", JVal.obj (JKvs.ofList
       (g.styles.map (fun kv => (renderStyleId kv.1, kv.2.toJVal))))),
     ("lookup", JVal.jsmap (JKvs.ofList
       (g.lookup.map (fun kv => (kv.1, JVal.str (renderStyleId kv.2)))))),
     ("usageCount", JVal.obj (JKvs.ofList
       (g.usageCount.map (fun kv => (renderStyleId kv.1, JVal.num kv.2))))),
     ("nodeSeenCount", JVal.jsmap (JKvs.ofList
       (g.nodeSeenCount.map (fun kv => (kv.1, JVal.num kv.2))))),
     ("tableCounters", JVal.jsmap (JKvs.ofList
       (g.tableCounters.map (fun kv => (kv.1, kv.2.toJVal)))))])

/-- `SimplifiedDesign` (`part_004` lines 75-83).  Components and
component sets are carried as already-sanitized JS objects; the claims
do not inspect them. -/
structure SimplifiedDesign where
  name : String
  lastModified : String
  thumbnailUrl : String
  nodes : List SimplifiedNode
  components : List (String × JVal)
  componentSets : List (String × JVal)
  globalVars : GlobalVars

def SimplifiedDesign.toJVal (d : SimplifiedDesign) : JVal :=
  JVal.obj (JKvs.ofList
    [("name", JVal.str d.name), ("lastModified", JVal.str d.lastModified),
     ("thumbnailUrl", JVal.str d.thumbnailUrl),
     ("nodes", JVal.arr (JList.ofList (d.nodes.map SimplifiedNode.toJVal))),
     ("components", JVal.obj (JKvs.ofList d.components)),
     ("componentSets", JVal.obj (JKvs.ofList d.componentSets)),
     ("globalVars", d.globalVars.toJVal)])

/-- The metadata of either upstream response shape. -/
structure FigmaFileMeta where
  name : String
  lastModified : String
  thumbnailUrl : Option String := none

/-- One entry of a `GetFileNodesResponse`. -/
structure NodeEntry where
  components : List (String × JVal) := []
  componentSets : List (String × JVal) := []
  document : FigmaNode

/-- The two upstream response shapes accepted by `parseFigmaResponse`
(`part_004` lines 198-220). -/
inductive FigmaResponse where
  | file (meta : FigmaFileMeta) (components componentSets : List (String × JVal))
      (documentChildren : List FigmaNode)
  | nodesResp (meta : FigmaFileMeta) (entries : List (String × NodeEntry))

/-- Modelled from the spec: `sanitizeComponents` /
`sanitizeComponentSets` (`utils/sanitization.ts` is absent from
`src/`) — "components (id → \x7bid, key, name, componentSetId?\x7d)";
the claims never inspect the result, which the model keeps as the
aggregated object. -/
def sanitizeComponents (cs : List (String × JVal)) : List (String × JVal) := cs

/-- `parseFigmaResponse` (`part_004` lines 198-254): aggregate
components, pick the nodes to parse, run the node pipeline, assemble
the design and strip empty keys.  The result is the emitted design as a
JS value. -/
def parseFigmaResponse (data : FigmaResponse) (maxDepth : Option Nat := none) :
    Except String JVal := do
  let (meta, components, componentSets, nodesToParse) :=
    match data with
    | FigmaResponse.file meta components componentSets documentChildren =>
      (meta, components, componentSets, documentChildren)
    | FigmaResponse.nodesResp meta entries =>
      (meta,
        entries.foldl (fun acc (e : String × NodeEntry) => e.2.components.foldl
          (fun a (kv : String × JVal) => aset a kv.1 kv.2) acc) [],
        entries.foldl (fun acc (e : String × NodeEntry) => e.2.componentSets.foldl
          (fun a (kv : String × JVal) => aset a kv.1 kv.2) acc) [],
        entries.map (fun (e : String × NodeEntry) => e.2.document))
  let (simplifiedNodes, globalVars) ← simplifyNodes nodesToParse maxDepth
  let design : SimplifiedDesign :=
    { name := meta.name
      lastModified := meta.lastModified
      thumbnailUrl := (meta.thumbnailUrl.getD "")
      nodes := simplifiedNodes
      components := sanitizeComponents components
      componentSets := sanitizeComponents componentSets
      globalVars := globalVars }
  pure (removeEmptyKeys design.toJVal)

/-! ## `fetchWithRetry` (`src/utils/fetch-with-retry.ts`) -/

/-- Outcome of the native `fetch` attempt: a network-level throw, or a
response with a status and a body whose `json()` either parses or
throws. -/
inductive NativeOutcome where
  | netError (msg : String)
  | response (status : Nat) (statusText : String) (body : Except String JVal)

/-- Outcome of `execAsync(curlCommand)`: rejection (non-zero exit), or
the captured `stdout`/`stderr`. -/
inductive CurlOutcome where
  | execFail (msg : String)
  | execOk (stdout stderr : String)

/-- Lines 36-67: the curl fallback.  `fetchError` is the original
native error; any failure inside the `try` (error-looking stderr, empty
stdout, exec rejection, `JSON.parse` throw) lands in the `catch`, which
re-throws the original error. -/
def curlFallback (fetchError : String) (curl : CurlOutcome)
    (parseJson : String → Except String JVal) : Except String JVal :=
  match curl with
  | CurlOutcome.execFail _ => .error fetchError
  | CurlOutcome.execOk stdout stderr =>
    if stderr ≠ ""
        ∧ (stdout = "" ∨ containsSub (lowerStr stderr) "error"
            ∨ containsSub (lowerStr stderr) "fail") then
      .error fetchError
    else if stdout = "" then .error fetchError
    else
      match parseJson stdout with
      | .ok v => .ok v
      | .error _ => .error fetchError

/-- `fetchWithRetry` (lines 16-69): native fetch first — throwing on a
non-2xx status — then the curl fallback.  `parseJson` stands for the
runtime's `JSON.parse`. -/
def fetchWithRetry (native : NativeOutcome) (curl : CurlOutcome)
    (parseJson : String → Except String JVal) : Except String JVal :=
  match native with
  | NativeOutcome.netError m => curlFallback m curl parseJson
  | NativeOutcome.response status statusText body =>
    if 200 ≤ status ∧ status < 300 then
      match body with
      | .ok v => .ok v
      | .error e => curlFallback e curl parseJson
    else
      curlFallback
        ("Fetch failed with status " ++ toString status ++ ": " ++ statusText)
        curl parseJson

/-! ## The wire depth parameter of the Figma client -/

/-- Modelled from the spec: the depth buffer of `FigmaService`
(`getFile`/`getNode`).  The `FigmaService` version that matches
`part_004`'s `parseFigmaResponse(data, maxDepth)` is absent from
`src/` — the copies present are earlier versions that neither buffer
the depth nor forward `maxDepth` — so the endpoint construction is
modelled from the spec: "when the caller supplies a depth `d`, the
client appends a `depth = min(d+2, 10)` query parameter". -/
def wireDepth (depth : Option Nat) : Option Nat :=
  depth.map (fun d => min (d + 2) 10)

/-- Modelled from the spec: the `getNode` request path
`/files/\x7bfileKey\x7d/nodes?ids=\x7bnodeId\x7d[&depth=D]` with the
buffered depth. -/
def getNodeEndpoint (fileKey nodeId : String) (depth : Option Nat) : String :=
  "/files/" ++ fileKey ++ "/nodes?ids=" ++ nodeId
    ++ (match wireDepth depth with
        | some k => "&depth=" ++ toString k
        | none => "")

/-- Modelled from the spec: the `getFile` request path with the
buffered depth. -/
def getFileEndpoint (fileKey : String) (depth : Option Nat) : String :=
  "/files/" ++ fileKey
    ++ (match wireDepth depth with
        | some k => "?depth=" ++ toString k
        | none => "")

/-! ## JS-value navigation helpers (for stating emission facts) -/

def jget (v : JVal) (k : String) : Option JVal :=
  match v with
  | JVal.obj kvs => kvs.get k
  | _ => none

def jget2 (v : JVal) (k1 k2 : String) : Option JVal :=
  match jget v k1 with
  | some w => jget w k2
  | none => none

def jitems (v : JVal) (k : String) : List JVal :=
  match jget v k with
  | some (JVal.arr xs) => xs.toList
  | _ => []

/-! ## Concrete scenario inputs for the claims -/

/-- A childless raw node carrying only the mandatory fields. -/
def leafNode (i nm ty : String) : FigmaNode :=
  FigmaNode.mk { id := i, name := nm, type := ty } FigmaNodes.nil

/-- A TEXT leaf with literal characters. -/
def textNode (i nm txt : String) : FigmaNode :=
  FigmaNode.mk { id := i, name := nm, type := "TEXT", characters := some txt }
    FigmaNodes.nil

/-- Row k of the table-dedup scenario: a FRAME with two TEXT
grand-children carrying `"Row k name"` / `"Row k value"`. -/
def tableRow (k : Nat) : FigmaNode :=
  FigmaNode.mk { id := "r" ++ toString k, name := "Row " ++ toString k, type := "FRAME" }
    (FigmaNodes.ofList
      [textNode ("t" ++ toString k ++ "a") "name" ("Row " ++ toString k ++ " name"),
       textNode ("t" ++ toString k ++ "b") "value" ("Row " ++ toString k ++ " value")])

/-- The claim-C3 input: a FRAME with seven such rows, k in 1..7. -/
def tableScenario : FigmaNode :=
  FigmaNode.mk { id := "root", name := "Table", type := "FRAME" }
    (FigmaNodes.ofList ((List.range 7).map (fun k => tableRow (k + 1))))

/-- A FRAME with `k` identical childless FRAME children (all sharing
one structure signature). -/
def repContainer (k : Nat) : FigmaNode :=
  FigmaNode.mk { id := "cont", name := "c", type := "FRAME" }
    (FigmaNodes.ofList (List.replicate k (leafNode "l" "x" "FRAME")))

/-- A FRAME whose single child of type `wrapTy` wraps a single TEXT
`"Hi"` (spec scenario 4). -/
def wrapperScenario (wrapTy : String) : FigmaNode :=
  FigmaNode.mk { id := "f", name := "F", type := "FRAME" }
    (FigmaNodes.ofList
      [FigmaNode.mk { id := "w", name := "W", type := wrapTy }
        (FigmaNodes.ofList [textNode "t" "T" "Hi"])])

/-- The shared text style of spec scenario 2. -/
def interStyle : RawStyle :=
  { fontFamily := some "Inter", fontWeight := some 400, fontSize := some 16 }

def styledTextNode (i : String) : FigmaNode :=
  FigmaNode.mk
    { id := i
      name := "T"
      type := "TEXT"
      characters := some "Hi"
      style := some interStyle } FigmaNodes.nil

/-- The claim-C10 input: a file response whose document children are
three TEXT nodes sharing `interStyle`. -/
def threeTextResponse : FigmaResponse :=
  FigmaResponse.file { name := "f", lastModified := "2024-01-01" } [] []
    [styledTextNode "a", styledTextNode "b", styledTextNode "c"]

/-- The emitted design of the C10 scenario. -/
def emittedThreeText : JVal :=
  match parseFigmaResponse threeTextResponse none with
  | Except.ok v => v
  | Except.error _ => JVal.null

/-- A paint of a type `parsePaint` does not handle (the upstream schema
also ships e.g. VIDEO paints). -/
def videoPaint : Paint := { kind := PaintKind.other "VIDEO" }

/-- The claim-C8 failing input: a visible RECTANGLE whose fills carry
an unhandled paint type. -/
def unknownPaintNode : FigmaNode :=
  FigmaNode.mk
    { id := "p"
      name := "P"
      type := "RECTANGLE"
      fills := some [videoPaint] } FigmaNodes.nil

/-- Child types of a parse result (convenience projection). -/
def parsedChildTypes (r : Except String (SimplifiedNode × GlobalVars)) : List String :=
  match r with
  | Except.ok (nd, _) => nd.children.toList.map (fun c => c.core.type)
  | Except.error _ => []

def parsedChildIds (r : Except String (SimplifiedNode × GlobalVars)) : List String :=
  match r with
  | Except.ok (nd, _) => nd.children.toList.map (fun c => c.core.id)
  | Except.error _ => []

def parsedChildTexts (r : Except String (SimplifiedNode × GlobalVars)) :
    List (Option String) :=
  match r with
  | Except.ok (nd, _) => nd.children.toList.map (fun c => c.core.text)
  | Except.error _ => []

/-- The table-counter keys of a parse result. -/
def parsedTableKeys (r : Except String (SimplifiedNode × GlobalVars)) : List String :=
  match r with
  | Except.ok (_, g) => g.tableCounters.map Prod.fst
  | Except.error _ => []

/-- The root node of a parse result (dummy on error). -/
def parsedRoot (r : Except String (SimplifiedNode × GlobalVars)) : SimplifiedNode :=
  match r with
  | Except.ok (nd, _) => nd
  | Except.error _ => SimplifiedNode.mk { id := "", name := "", type := "" }
      SimplifiedNodes.nil

mutual

/-- The depth predicate of claim C6: starting at depth `d`, every node
whose type is not in `excluded` lies at depth ≤ `m`. -/
def depthOk (excluded : List String) (m : Nat) : Nat → SimplifiedNode → Bool
  | d, SimplifiedNode.mk core kids =>
    (decide (d ≤ m) || decide (core.type ∈ excluded))
      && depthOkList excluded m (d + 1) kids

def depthOkList (excluded : List String) (m : Nat) : Nat → SimplifiedNodes → Bool
  | _, SimplifiedNodes.nil => true
  | d, SimplifiedNodes.cons x xs =>
    depthOk excluded m d x && depthOkList excluded m d xs

end

/-! ## Reference counts and state invariants -/

def slotCount (slot : Option StyleSlot) (id : StyleId) : Nat :=
  if slot = some (StyleSlot.ref id) then 1 else 0

/-- How many of a node's five style slots hold the interned id. -/
def coreRefCount (id : StyleId) (c : SNodeCore) : Nat :=
  slotCount c.textStyle id + slotCount c.fills id + slotCount c.strokes id
    + slotCount c.effects id + slotCount c.layout id

mutual

def refCountNode (id : StyleId) : SimplifiedNode → Nat
  | SimplifiedNode.mk core kids => coreRefCount id core + refCountNodes id kids

def refCountNodes (id : StyleId) : SimplifiedNodes → Nat
  | SimplifiedNodes.nil => 0
  | SimplifiedNodes.cons x xs => refCountNode id x + refCountNodes id xs

end

def refCountForest (id : StyleId) (nodes : List SimplifiedNode) : Nat :=
  (nodes.map (refCountNode id)).sum

def usageD (g : GlobalVars) (id : StyleId) : Nat := (aget g.usageCount id).getD 0

def styleHas (g : GlobalVars) (id : StyleId) : Prop := (aget g.styles id).isSome

instance (g : GlobalVars) (id : StyleId) : Decidable (styleHas g id) := by
  unfold styleHas; infer_instance

/-- The depth-limit placeholder node. -/
def depthLimitNode (n : FigmaNode) (depth : Nat) : SimplifiedNode :=
  SimplifiedNode.mk
    { id := "depth_limit_" ++ n.data.id
      name := n.data.name
      type := "DEPTH_LIMIT"
      text := some (depthWarn depth) } SimplifiedNodes.nil

/-- The native attempt failed with error `e`: either the fetch itself
threw `e`, or the response status was outside 2xx and the code threw
the status error. -/
def nativeFailsWith (native : NativeOutcome) (e : String) : Prop :=
  (∃ m, native = NativeOutcome.netError m ∧ e = m)
    ∨ (∃ status statusText body,
        native = NativeOutcome.response status statusText body
          ∧ ¬(200 ≤ status ∧ status < 300)
          ∧ e = "Fetch failed with status " ++ toString status ++ ": " ++ statusText)

/-- A concrete `JSON.parse` stand-in for the witness. -/
def witnessParse : String → Except String JVal :=
  fun s => if s = "177" then .ok (JVal.num 177) else .error "Unexpected token"

/-- Well-formedness of the interner state: every id known to `styles`,
`usageCount` or `lookup` has a serial below the generator counter (so
fresh draws are fresh), and `lookup` only maps to interned ids. -/
structure WFG (g : GlobalVars) : Prop where
  stylesLt : ∀ id : StyleId, styleHas g id → id.serial < g.counter
  usageLt : ∀ id : StyleId, usageD g id ≠ 0 → id.serial < g.counter
  lookupStyles : ∀ (s : String) (id : StyleId),
    aget g.lookup s = some id → styleHas g id
  lookupInj : ∀ (s1 s2 : String) (id : StyleId),
    aget g.lookup s1 = some id → aget g.lookup s2 = some id → s1 = s2

theorem aget_aset_self {α β : Type} [DecidableEq α]
    (l : List (α × β)) (k : α) (v : β) : aget (aset l k v) k = some v := by
  induction l with
  | nil => simp [aset, aget]
  | cons hd tl ih =>
    obtain ⟨k0, v0⟩ := hd
    by_cases h : k0 = k <;> simp [aset, aget, h, ih]

theorem aget_aset_ne {α β : Type} [DecidableEq α]
    (l : List (α × β)) (k j : α) (v : β) (h : j ≠ k) :
    aget (aset l k v) j = aget l j := by
  induction l with
  | nil =>
    have : ¬k = j := fun hh => h hh.symm
    simp [aset, aget, this]
  | cons hd tl ih =>
    obtain ⟨k0, v0⟩ := hd
    by_cases hk : k0 = k
    · subst hk
      have : ¬k0 = j := fun hh => h hh.symm
      simp [aset, aget, this]
    · by_cases hj : k0 = j <;> simp [aset, aget, hk, hj, ih, h]

theorem aerase_cons {α β : Type} [DecidableEq α]
    (k0 : α) (v0 : β) (tl : List (α × β)) (k : α) :
    aerase ((k0, v0) :: tl) k =
      if k0 = k then aerase tl k else (k0, v0) :: aerase tl k := by
  by_cases hk : k0 = k <;> simp [aerase, List.filter_cons, hk]

theorem aget_aerase {α β : Type} [DecidableEq α]
    (l : List (α × β)) (k j : α) :
    aget (aerase l k) j = if j = k then none else aget l j := by
  induction l with
  | nil => simp [aerase, aget]
  | cons hd tl ih =>
    obtain ⟨k0, v0⟩ := hd
    rw [aerase_cons]
    by_cases hk : k0 = k
    · subst hk
      by_cases hj : j = k0
      · simpa [hj] using ih
      · have hne : ¬k0 = j := fun hh => hj hh.symm
        simpa [aget, hj, hne] using ih
    · by_cases h0 : k0 = j
      · subst h0
        simp [aget, hk]
      · by_cases hj : j = k
        · subst hj
          simpa [aget, hk, h0] using ih
        · simp [aget, hk, h0, hj, ih]

theorem wfg_empty : WFG emptyGlobalVars := by
  constructor <;> intros <;> simp [styleHas, usageD, emptyGlobalVars, aget] at *

/-! ## The interner's behaviour -/

theorem findOrCreateVar_hit (g : GlobalVars) (v : StyleValue) (pfx : String)
    (id0 : StyleId) (h : aget g.lookup (valueStr v) = some id0) :
    findOrCreateVar g v pfx
      = (id0, { g with usageCount := aset g.usageCount id0 (usageD g id0 + 1) }) := by
  simp only [findOrCreateVar, h, usageD]

theorem findOrCreateVar_miss (g : GlobalVars) (v : StyleValue) (pfx : String)
    (h : aget g.lookup (valueStr v) = none) :
    findOrCreateVar g v pfx
      = (⟨pfx, g.counter⟩,
        { g with
            styles := aset g.styles ⟨pfx, g.counter⟩ v,
            lookup := aset g.lookup (valueStr v) ⟨pfx, g.counter⟩,
            usageCount := aset g.usageCount ⟨pfx, g.counter⟩ 1,
            counter := g.counter + 1 }) := by
  simp only [findOrCreateVar, h, generateVarId]

/-- Ids in the lookup range have serials below the counter. -/
theorem lookup_serial_lt {g : GlobalVars} (hw : WFG g) {s : String} {id : StyleId}
    (h : aget g.lookup s = some id) : id.serial < g.counter :=
  hw.stylesLt id (hw.lookupStyles s id h)

/-- One interning step: the state stays well-formed, the counter and the
styles table only grow, the returned id is interned, its usage count
rises by exactly one and no other count moves, the table counters are
untouched, and the canonical serialization now resolves to the returned
id. -/
theorem findOrCreateVar_spec (g : GlobalVars) (v : StyleValue) (pfx : String)
    (hw : WFG g) :
    WFG (findOrCreateVar g v pfx).2
    ∧ g.counter ≤ (findOrCreateVar g v pfx).2.counter
    ∧ (∀ j, styleHas g j → styleHas (findOrCreateVar g v pfx).2 j)
    ∧ styleHas (findOrCreateVar g v pfx).2 (findOrCreateVar g v pfx).1
    ∧ usageD (findOrCreateVar g v pfx).2 (findOrCreateVar g v pfx).1
        = usageD g (findOrCreateVar g v pfx).1 + 1
    ∧ (∀ j, j ≠ (findOrCreateVar g v pfx).1 →
        usageD (findOrCreateVar g v pfx).2 j = usageD g j)
    ∧ (findOrCreateVar g v pfx).2.tableCounters = g.tableCounters
    ∧ aget (findOrCreateVar g v pfx).2.lookup (valueStr v)
        = some (findOrCreateVar g v pfx).1 := by
  cases h : aget g.lookup (valueStr v) with
  | some id0 =>
    rw [findOrCreateVar_hit g v pfx id0 h]
    have hmem : styleHas g id0 := hw.lookupStyles _ _ h
    refine ⟨⟨hw.stylesLt, ?_, hw.lookupStyles, hw.lookupInj⟩, le_refl _,
      fun j hj => hj, hmem, ?_, fun j hj => ?_, rfl, h⟩
    · intro id hne
      by_cases hid : id = id0
      · subst hid
        exact hw.stylesLt id hmem
      · apply hw.usageLt
        simpa [usageD, aget_aset_ne _ _ _ _ hid] using hne
    · simp [usageD, aget_aset_self]
    · simp [usageD, aget_aset_ne _ _ _ _ hj]
  | none =>
    rw [findOrCreateVar_miss g v pfx h]
    have husage0 : (aget g.usageCount ⟨pfx, g.counter⟩).getD 0 = 0 := by
      by_contra hne
      exact absurd (hw.usageLt ⟨pfx, g.counter⟩ hne) (by simp)
    have hmono : ∀ j, styleHas g j →
        (aget (aset g.styles ⟨pfx, g.counter⟩ v) j).isSome := by
      intro j hj
      by_cases hjf : j = (⟨pfx, g.counter⟩ : StyleId)
      · subst hjf
        simp [aget_aset_self]
      · rw [aget_aset_ne _ _ _ _ hjf]
        exact hj
    refine ⟨⟨?_, ?_, ?_, ?_⟩, by simp, hmono, ?_, ?_, fun j hj => ?_, rfl, ?_⟩
    · intro id hid
      by_cases hidf : id = (⟨pfx, g.counter⟩ : StyleId)
      · subst hidf
        simp
      · have : styleHas g id := by
          simpa [styleHas, aget_aset_ne _ _ _ _ hidf] using hid
        exact Nat.lt_succ_of_lt (hw.stylesLt id this)
    · intro id hid
      by_cases hidf : id = (⟨pfx, g.counter⟩ : StyleId)
      · subst hidf
        simp
      · have : usageD g id ≠ 0 := by
          simpa [usageD, aget_aset_ne _ _ _ _ hidf] using hid
        exact Nat.lt_succ_of_lt (hw.usageLt id this)
    · intro s id hs
      by_cases hsv : s = valueStr v
      · subst hsv
        rw [aget_aset_self] at hs
        cases hs
        simp [styleHas, aget_aset_self]
      · rw [aget_aset_ne _ _ _ _ hsv] at hs
        exact hmono id (hw.lookupStyles s id hs)
    · intro s1 s2 id hs1 hs2
      by_cases h1 : s1 = valueStr v <;> by_cases h2 : s2 = valueStr v
      · rw [h1, h2]
      · subst h1
        rw [aget_aset_self] at hs1
        cases hs1
        rw [aget_aset_ne _ _ _ _ h2] at hs2
        exact absurd (lookup_serial_lt hw hs2) (by simp)
      · subst h2
        rw [aget_aset_self] at hs2
        cases hs2
        rw [aget_aset_ne _ _ _ _ h1] at hs1
        exact absurd (lookup_serial_lt hw hs1) (by simp)
      · rw [aget_aset_ne _ _ _ _ h1] at hs1
        rw [aget_aset_ne _ _ _ _ h2] at hs2
        exact hw.lookupInj s1 s2 id hs1 hs2
    · simp [styleHas, aget_aset_self]
    · simp [usageD, aget_aset_self, husage0]
    · simp [usageD, aget_aset_ne _ _ _ _ hj]
    · simp [aget_aset_self]

/-! ## Claim C2 — the interner's id equality -/

/-- Counterexample to claim C2: two structurally different fills values
— a red and a blue solid fill — receive the *same* style id within one
parse, because `JSON.stringify(value, Object.keys(value).sort())` uses
the array's index strings as the replacer list, which filters out every
key of the nested paint objects: both values canonicalize to
`[\x7b\x7d]`.  So "same id iff structurally equal" fails. -/
theorem c2_counterexample :
    StyleValue.fills [SimplifiedFill.solid "#FF0000" 1]
        ≠ StyleValue.fills [SimplifiedFill.solid "#0000FF" 1]
    ∧ valueStr (StyleValue.fills [SimplifiedFill.solid "#FF0000" 1])
        = valueStr (StyleValue.fills [SimplifiedFill.solid "#0000FF" 1])
    ∧ (findOrCreateVar
        (findOrCreateVar emptyGlobalVars
          (StyleValue.fills [SimplifiedFill.solid "#FF0000" 1]) "fill").2
        (StyleValue.fills [SimplifiedFill.solid "#0000FF" 1]) "fill").1
      = (findOrCreateVar emptyGlobalVars
          (StyleValue.fills [SimplifiedFill.solid "#FF0000" 1]) "fill").1 := by
  refine ⟨by decide, by decide, by decide⟩

/-- Claim C2 as amended: within one parse, `findOrCreateVar` returns
the same id for two interned values **iff their canonical
serializations coincide** (structural equality implies this, but not
conversely); on a hit it returns the existing id and bumps its usage
count by exactly one, and on a miss it records the value under a fresh
id with usage count 1. -/
theorem c2_intern_amended (g : GlobalVars) (hw : WFG g) (v1 v2 : StyleValue)
    (p1 p2 : String) :
    (∀ id0, aget g.lookup (valueStr v1) = some id0 →
      findOrCreateVar g v1 p1
        = (id0, { g with usageCount := aset g.usageCount id0 (usageD g id0 + 1) })) ∧
    (aget g.lookup (valueStr v1) = none →
      (findOrCreateVar g v1 p1).1 = ⟨p1, g.counter⟩
        ∧ ¬ styleHas g ⟨p1, g.counter⟩
        ∧ usageD g ⟨p1, g.counter⟩ = 0
        ∧ usageD (findOrCreateVar g v1 p1).2 ⟨p1, g.counter⟩ = 1
        ∧ aget (findOrCreateVar g v1 p1).2.styles ⟨p1, g.counter⟩ = some v1
        ∧ aget (findOrCreateVar g v1 p1).2.lookup (valueStr v1)
            = some ⟨p1, g.counter⟩) ∧
    ((findOrCreateVar (findOrCreateVar g v1 p1).2 v2 p2).1
        = (findOrCreateVar g v1 p1).1
      ↔ valueStr v2 = valueStr v1) := by
  obtain ⟨hw1, hc1, hmono1, hmem1, husage1, hother1, htc1, hlk1⟩ :=
    findOrCreateVar_spec g v1 p1 hw
  refine ⟨fun id0 h0 => findOrCreateVar_hit g v1 p1 id0 h0, fun hmiss => ?_, ?_⟩
  · rw [findOrCreateVar_miss g v1 p1 hmiss]
    have husage0 : usageD g ⟨p1, g.counter⟩ = 0 := by
      by_contra hne
      exact absurd (hw.usageLt ⟨p1, g.counter⟩ hne) (by simp)
    have hnost : ¬ styleHas g ⟨p1, g.counter⟩ := by
      intro hst
      exact absurd (hw.stylesLt ⟨p1, g.counter⟩ hst) (by simp)
    refine ⟨rfl, hnost, husage0, ?_, by simp [aget_aset_self], by simp [aget_aset_self]⟩
    simp [usageD, aget_aset_self]
  · constructor
    · intro heq
      cases h2 : aget (findOrCreateVar g v1 p1).2.lookup (valueStr v2) with
      | some id2 =>
        rw [findOrCreateVar_hit _ v2 p2 id2 h2] at heq
        simp at heq
        subst heq
        exact hw1.lookupInj _ _ _ h2 hlk1
      | none =>
        rw [findOrCreateVar_miss _ v2 p2 h2] at heq
        simp at heq
        have hlt : (findOrCreateVar g v1 p1).1.serial
            < (findOrCreateVar g v1 p1).2.counter := hw1.stylesLt _ hmem1
        rw [← heq] at hlt
        simp at hlt
    · intro hvs
      have hlk2 : aget (findOrCreateVar g v1 p1).2.lookup (valueStr v2)
          = some (findOrCreateVar g v1 p1).1 := by
        rw [hvs]; exact hlk1
      rw [findOrCreateVar_hit _ v2 p2 _ hlk2]

/-- Witness for `c2_intern_amended` at a concrete state: interning a
text style twice from the empty state returns `style_0` both times and
counts two usages. -/
theorem c2_witness :
    (findOrCreateVar
        (findOrCreateVar emptyGlobalVars
          (StyleValue.text { fontFamily := some "Inter" }) "style").2
        (StyleValue.text { fontFamily := some "Inter" }) "style").1
      = (findOrCreateVar emptyGlobalVars
          (StyleValue.text { fontFamily := some "Inter" }) "style").1 := by
  exact (c2_intern_amended emptyGlobalVars wfg_empty
    (StyleValue.text { fontFamily := some "Inter" })
    (StyleValue.text { fontFamily := some "Inter" }) "style" "style").2.2.mpr rfl

/-! ## Shared lemmas about `parseNode` -/

/-- Beyond the depth budget, `parseNode` returns the placeholder and
leaves the state untouched — in particular it does not recurse. -/
theorem parseNode_depth_clamp (g : GlobalVars) (n : FigmaNode)
    (parent : Option FigmaNode) (depth : Nat) (parentContext : Option String)
    (m : Nat) (h : depth > m) :
    parseNode g n parent depth parentContext (some m) =
      .ok (depthLimitNode n depth, g) := by
  obtain ⟨d, kids⟩ := n
  show parseNodeF (nodesSize kids + 1) _ _ _ _ _ _ = _
  rw [parseNodeF]
  simp [depthExceeded, h, depthLimitNode, FigmaNode.data]

/-! ## Claim C7 — the fetch fallback contract -/

theorem fetchWithRetry_fallback (native : NativeOutcome) (curl : CurlOutcome)
    (parseJson : String → Except String JVal) (e : String)
    (hfail : nativeFailsWith native e) :
    fetchWithRetry native curl parseJson = curlFallback e curl parseJson := by
  rcases hfail with ⟨m, hn, he⟩ | ⟨status, statusText, body, hn, hs, he⟩
  · subst hn; subst he; rfl
  · subst hn; subst he; simp [fetchWithRetry, hs]

/-- Claim C7: when the native fetch fails and the curl fallback yields
empty stdout, or stderr containing "error"/"fail" (case-insensitive),
the original native error is re-thrown; when the fallback yields
non-empty stdout without such stderr, the JSON-parsed stdout is
returned. -/
theorem c7_fetch_fallback_contract (native : NativeOutcome)
    (parseJson : String → Except String JVal) (e : String)
    (hfail : nativeFailsWith native e) :
    (∀ stdout stderr,
      (stdout = ""
        ∨ containsSub (lowerStr stderr) "error" = true
        ∨ containsSub (lowerStr stderr) "fail" = true) →
      fetchWithRetry native (CurlOutcome.execOk stdout stderr) parseJson
        = .error e) ∧
    (∀ stdout stderr v, stdout ≠ "" →
      containsSub (lowerStr stderr) "error" = false →
      containsSub (lowerStr stderr) "fail" = false →
      parseJson stdout = .ok v →
      fetchWithRetry native (CurlOutcome.execOk stdout stderr) parseJson
        = .ok v) := by
  constructor
  · intro stdout stderr hbad
    rw [fetchWithRetry_fallback native _ parseJson e hfail]
    by_cases hse : stderr = ""
    · have hout : stdout = "" := by
        rcases hbad with hout | herr | hfl
        · exact hout
        · rw [hse] at herr
          exact absurd herr (by decide)
        · rw [hse] at hfl
          exact absurd hfl (by decide)
      simp [curlFallback, hse, hout]
    · rcases hbad with hout | herr | hfl
      · simp [curlFallback, hse, hout]
      · simp [curlFallback, hse, herr]
      · simp [curlFallback, hse, hfl]
  · intro stdout stderr v hout herr hfl hparse
    rw [fetchWithRetry_fallback native _ parseJson e hfail]
    simp [curlFallback, hout, herr, hfl, hparse]

/-- Witness for C7: a network error `ENETUNREACH`, one fallback with
empty stdout (original error re-surfaces) and one with parseable stdout
and benign stderr (parsed body returned). -/
theorem c7_witness :
    fetchWithRetry (NativeOutcome.netError "ENETUNREACH")
        (CurlOutcome.execOk "" "") witnessParse = .error "ENETUNREACH"
    ∧ fetchWithRetry (NativeOutcome.netError "ENETUNREACH")
        (CurlOutcome.execOk "177" "note: redirected") witnessParse
      = .ok (JVal.num 177) := by
  have h := c7_fetch_fallback_contract (NativeOutcome.netError "ENETUNREACH")
    witnessParse "ENETUNREACH" (Or.inl ⟨"ENETUNREACH", rfl, rfl⟩)
  exact ⟨h.1 "" "" (Or.inl rfl),
    h.2 "177" "note: redirected" (JVal.num 177) (by decide) (by decide) (by decide)
      (by rfl)⟩

/-! ## Claim C9 — the wire depth buffer and the simplifier truncation -/

/-- Claim C9: a caller-supplied depth `d` reaches the wire as
`min(d+2, 10)` on both endpoints, while the truncation at exactly `d`
is performed by the simplifier's depth clamp, not by the request. -/
theorem c9_depth_buffer :
    (∀ fileKey nodeId d,
      getNodeEndpoint fileKey nodeId (some d)
        = "/files/" ++ fileKey ++ "/nodes?ids=" ++ nodeId
          ++ "&depth=" ++ toString (min (d + 2) 10)) ∧
    (∀ fileKey d,
      getFileEndpoint fileKey (some d)
        = "/files/" ++ fileKey ++ "?depth=" ++ toString (min (d + 2) 10)) ∧
    (∀ g n parent depth parentContext d, depth > d →
      parseNode g n parent depth parentContext (some d)
        = .ok (depthLimitNode n depth, g)) := by
  refine ⟨fun fileKey nodeId d => ?_, fun fileKey d => ?_,
    fun g n parent depth ctx d h => parseNode_depth_clamp g n parent depth ctx d h⟩
  · simp [getNodeEndpoint, wireDepth, String.append_assoc]
  · simp [getFileEndpoint, wireDepth, String.append_assoc]

/-- Witness for C9 at `d = 5`, `depth = 6`. -/
theorem c9_witness :
    getNodeEndpoint "KEY" "1:2" (some 5) = "/files/KEY/nodes?ids=1:2&depth=7"
    ∧ parseNode emptyGlobalVars
        (FigmaNode.mk { id := "D", name := "D", type := "FRAME" } FigmaNodes.nil)
        none 6 none (some 5)
      = .ok (depthLimitNode
          (FigmaNode.mk { id := "D", name := "D", type := "FRAME" } FigmaNodes.nil)
          6, emptyGlobalVars) := by
  refine ⟨?_, c9_depth_buffer.2.2 _ _ _ _ _ 5 (by decide)⟩
  have h := c9_depth_buffer.1 "KEY" "1:2" 5
  simpa using h

end FigmaMCP
